import Mathlib

/-!
Verification development for the fan-atpg repository (FAN automatic test
pattern generation for single stuck-at faults in combinational circuits).

The Go source is shallowly embedded: the pointer graph of lines and gates is
replaced by id-indexed lists held in a `Circuit` structure, and every mutating
Go method becomes a function from states to states.  Go maps (`Circuit.Gates`,
`Circuit.Lines`) have no specified iteration order; the embedding stores them
as lists, and a list's order stands for one (arbitrary) traversal order of the
corresponding map.  Functions returning Go's `(bool, error)` pairs return a
`Bool × Option String` here; `fmt.Errorf` messages are kept where they are
constant strings.  Logging and statistics calls are omitted (pure
instrumentation).  A pointer dereference of a line or gate id that is absent
from the circuit reads as an X-valued line / is skipped, which matches every
well-formed circuit built by the repository's constructors.
-/

set_option maxHeartbeats 1000000

namespace FanAtpg

/-- Five-valued logic, from `LogicValue` in the circuit package:
`X` unknown, `Zero`, `One`, `D` (good 0 / faulty 1), `Dnot` (good 1 / faulty 0). -/
inductive LogicValue where
  | X
  | Zero
  | One
  | D
  | Dnot
deriving DecidableEq, Repr, Inhabited

/-- Gate kinds, from `GateType`. -/
inductive GateType where
  | AND
  | OR
  | NOT
  | NAND
  | NOR
  | XOR
  | XNOR
  | BUF
deriving DecidableEq, Repr, Inhabited

/-- Line classification, from `LineType`. -/
inductive LineType where
  | Normal
  | PrimaryInput
  | PrimaryOutput
  | FaultSite
deriving DecidableEq, Repr, Inhabited

/-- `LogicValue.IsFaulty` from gate.go. -/
def LogicValue.isFaulty : LogicValue → Bool
  | .D => true
  | .Dnot => true
  | _ => false

/-- A signal line, from `Line` in line.go.  Gate references are by id. -/
structure Line where
  id : Nat
  name : String
  value : LogicValue
  type : LineType
  inputGate : Option Nat
  outputGates : List Nat
  isFree : Bool
  isBound : Bool
  isHeadLine : Bool
  isFaultSite : Bool
  faultType : LogicValue
  assignmentCount : Nat
deriving DecidableEq, Repr, Inhabited

/-- `NewLine` from line.go. -/
def NewLine (id : Nat) (name : String) (lineType : LineType) : Line :=
  { id := id, name := name, value := .X, type := lineType, inputGate := none,
    outputGates := [], isFree := true, isBound := false, isHeadLine := false,
    isFaultSite := false, faultType := .X, assignmentCount := 0 }

/-- `Line.SetValue` from line.go: plain assignment plus the instrumentation
counter; no D/Dnot conversion of any kind happens here. -/
def Line.setValue (l : Line) (value : LogicValue) : Line :=
  { l with value := value, assignmentCount := l.assignmentCount + 1 }

/-- `Line.Reset` from line.go. -/
def Line.resetLine (l : Line) : Line := { l with value := .X }

/-- `Line.IsAssigned`. -/
def Line.isAssigned (l : Line) : Bool := l.value != .X

/-- `Line.IsFaulty`. -/
def Line.isFaulty (l : Line) : Bool := l.value == .D || l.value == .Dnot

/-- `Line.GetGoodValue`. -/
def Line.getGoodValue (l : Line) : LogicValue :=
  match l.value with
  | .D => .Zero
  | .Dnot => .One
  | v => v

/-- `Line.GetFaultyValue`. -/
def Line.getFaultyValue (l : Line) : LogicValue :=
  match l.value with
  | .D => .One
  | .Dnot => .Zero
  | v => v

/-- A gate, from `Gate` in gate.go.  Line references are by id. -/
structure Gate where
  id : Nat
  name : String
  type : GateType
  inputs : List Nat
  output : Nat
  controlID : Int
  isInDFrontier : Bool
deriving DecidableEq, Repr, Inhabited

/-- The circuit container, from `Circuit` in circuit.go.  The `gates` and
`lines` lists model the Go maps `Gates`/`Lines`; their order models one
traversal order of the map (Go specifies none). -/
structure Circuit where
  name : String
  gates : List Gate
  lines : List Line
  inputs : List Nat
  outputs : List Nat
  faultSite : Option Nat
  faultType : LogicValue
  dFrontier : List Nat
  jFrontier : List Nat
  headLines : List Nat
deriving DecidableEq, Repr, Inhabited

def Circuit.getLine (c : Circuit) (id : Nat) : Option Line :=
  c.lines.find? (fun l => l.id == id)

def Circuit.getGate (c : Circuit) (id : Nat) : Option Gate :=
  c.gates.find? (fun g => g.id == id)

/-- The value currently on line `id` (an absent id reads as X; in the Go
source the pointer is always valid for constructed circuits). -/
def Circuit.lineValue (c : Circuit) (id : Nat) : LogicValue :=
  ((c.getLine id).map Line.value).getD .X

/-- Apply `Line.SetValue` to the line with the given id. -/
def Circuit.setLineValue (c : Circuit) (id : Nat) (v : LogicValue) : Circuit :=
  { c with lines := c.lines.map (fun l => if l.id == id then l.setValue v else l) }

/-- Raw field assignment `line.Value = v` (no instrumentation counter),
as used by `SimulateForward` and the state-restore helpers. -/
def Circuit.setLineValueRaw (c : Circuit) (id : Nat) (v : LogicValue) : Circuit :=
  { c with lines := c.lines.map (fun l => if l.id == id then { l with value := v } else l) }

/-! ## Gate evaluation (gate.go)

The Go evaluators read `input.Value` from the gate's input lines; here they
are factored through pure functions on the list of input values, and
`Gate.evaluate` plugs in the values read from the circuit. -/

/-- The loop body of `evaluateAND`: scans the inputs left to right with the
accumulators `result` (starts `One`, becomes `X` on an X input), `hasDorDnot`
and `dType` (the last faulty value seen); a `Zero` input returns `Zero`
immediately. -/
def evalANDAux : List FanAtpg.LogicValue → FanAtpg.LogicValue → Bool →
    FanAtpg.LogicValue → FanAtpg.LogicValue
  | [], result, hasDorDnot, dType =>
      if result == .Zero then .Zero
      else if hasDorDnot && result != .X then dType
      else result
  | v :: rest, result, hasDorDnot, dType =>
      match v with
      | .Zero => .Zero
      | .X => evalANDAux rest .X hasDorDnot dType
      | .D => evalANDAux rest result true .D
      | .Dnot => evalANDAux rest result true .Dnot
      | .One => evalANDAux rest result hasDorDnot dType

/-- `Gate.evaluateAND` from gate.go, as a function of the input values. -/
def evalAND (vs : List FanAtpg.LogicValue) : FanAtpg.LogicValue :=
  evalANDAux vs .One false .X

/-- The loop body of `evaluateOR` (dual of `evalANDAux`): a `One` input
returns `One` immediately; `result` starts `Zero`. -/
def evalORAux : List FanAtpg.LogicValue → FanAtpg.LogicValue → Bool →
    FanAtpg.LogicValue → FanAtpg.LogicValue
  | [], result, hasDorDnot, dType =>
      if result == .One then .One
      else if hasDorDnot && result != .X then dType
      else result
  | v :: rest, result, hasDorDnot, dType =>
      match v with
      | .One => .One
      | .X => evalORAux rest .X hasDorDnot dType
      | .D => evalORAux rest result true .D
      | .Dnot => evalORAux rest result true .Dnot
      | .Zero => evalORAux rest result hasDorDnot dType

/-- `Gate.evaluateOR` from gate.go. -/
def evalOR (vs : List FanAtpg.LogicValue) : FanAtpg.LogicValue :=
  evalORAux vs .Zero false .X

/-- The five-valued inversion used by `evaluateNOT`/`evaluateNAND`/
`evaluateNOR`/`evaluateXNOR` (switch with default X). -/
def invertValue : FanAtpg.LogicValue → FanAtpg.LogicValue
  | .Zero => .One
  | .One => .Zero
  | .D => .Dnot
  | .Dnot => .D
  | .X => .X

/-- `Gate.evaluateNOT`: X unless there is exactly one input. -/
def evalNOT (vs : List FanAtpg.LogicValue) : FanAtpg.LogicValue :=
  match vs with
  | [a] => invertValue a
  | _ => .X

/-- `Gate.evaluateBUF`: X unless there is exactly one input. -/
def evalBUF (vs : List FanAtpg.LogicValue) : FanAtpg.LogicValue :=
  match vs with
  | [a] => a
  | _ => .X

/-- `Gate.evaluateXOR`: two inputs only; X if either input is X; standard
XOR on binary inputs; X whenever a faulty value is involved (documented
simplification in the source). -/
def evalXOR (vs : List FanAtpg.LogicValue) : FanAtpg.LogicValue :=
  match vs with
  | [a, b] =>
      if a == .X || b == .X then .X
      else if (a == .Zero && b == .Zero) || (a == .One && b == .One) then .Zero
      else if (a == .Zero && b == .One) || (a == .One && b == .Zero) then .One
      else .X
  | _ => .X

/-- `Gate.Evaluate` dispatch, as a function of the gate kind and the list of
input values; NAND/NOR/XNOR evaluate the positive form then invert. -/
def evalGate (t : FanAtpg.GateType) (vs : List FanAtpg.LogicValue) : FanAtpg.LogicValue :=
  match t with
  | .AND => evalAND vs
  | .OR => evalOR vs
  | .NOT => evalNOT vs
  | .NAND => invertValue (evalAND vs)
  | .NOR => invertValue (evalOR vs)
  | .XOR => evalXOR vs
  | .XNOR => invertValue (evalXOR vs)
  | .BUF => evalBUF vs

/-- The input values of a gate in the current circuit state. -/
def Circuit.inputValues (c : FanAtpg.Circuit) (g : FanAtpg.Gate) : List FanAtpg.LogicValue :=
  g.inputs.map c.lineValue

/-- `Gate.Evaluate` from gate.go, reading the input values from the state. -/
def Gate.evaluate (c : FanAtpg.Circuit) (g : FanAtpg.Gate) : FanAtpg.LogicValue :=
  evalGate g.type (c.inputValues g)

/-- `Gate.IsInputsAssigned`. -/
def Gate.isInputsAssigned (c : FanAtpg.Circuit) (g : FanAtpg.Gate) : Bool :=
  g.inputs.all (fun id => c.lineValue id != .X)

/-- `Gate.HasFaultyInput`. -/
def Gate.hasFaultyInput (c : FanAtpg.Circuit) (g : FanAtpg.Gate) : Bool :=
  g.inputs.any (fun id => (c.lineValue id).isFaulty)

/-- `Gate.GetControllingValue`: 0 for AND/NAND, 1 for OR/NOR, X otherwise. -/
def Gate.getControllingValue (g : FanAtpg.Gate) : FanAtpg.LogicValue :=
  match g.type with
  | .AND => .Zero
  | .NAND => .Zero
  | .OR => .One
  | .NOR => .One
  | _ => .X

/-- `Gate.GetNonControllingValue`: 1 for AND/NAND, 0 for OR/NOR, X otherwise. -/
def Gate.getNonControllingValue (g : FanAtpg.Gate) : FanAtpg.LogicValue :=
  match g.type with
  | .AND => .One
  | .NAND => .One
  | .OR => .Zero
  | .NOR => .Zero
  | _ => .X

/-- `Gate.IsSensitizable` from gate.go: AND/NAND/OR/NOR need every non-faulty
input to be assigned and different from the controlling value; NOT/BUF are
always sensitizable; XOR/XNOR need every non-faulty input assigned. -/
def Gate.isSensitizable (c : FanAtpg.Circuit) (g : FanAtpg.Gate) : Bool :=
  match g.type with
  | .AND | .NAND | .OR | .NOR =>
      g.inputs.all (fun id =>
        (c.lineValue id).isFaulty ||
          ((c.lineValue id) != g.getControllingValue && (c.lineValue id) != .X))
  | .NOT | .BUF => true
  | .XOR | .XNOR =>
      g.inputs.all (fun id => (c.lineValue id).isFaulty || (c.lineValue id) != .X)

/-! ## Circuit operations (circuit.go) -/

/-- `Circuit.Reset`: all line values back to X, fault registration cleared,
both frontier lists emptied.  The per-line topology flags are untouched
(`Line.Reset` only clears the value). -/
def Circuit.reset (c : FanAtpg.Circuit) : FanAtpg.Circuit :=
  { c with lines := c.lines.map Line.resetLine,
           faultSite := none, faultType := .X,
           dFrontier := [], jFrontier := [] }

/-- `Circuit.InjectFault`: record the fault site and type on the circuit and
on the line; if the site currently holds a non-X value, re-apply that value
via `Line.SetValue` (after zeroing to X to avoid double-counting the
instrumentation counter).  `Line.SetValue` performs a plain assignment, so
the re-applied value is stored unchanged. -/
def Circuit.injectFault (c : FanAtpg.Circuit) (faultSiteId : Nat)
    (faultType : FanAtpg.LogicValue) : FanAtpg.Circuit :=
  let c1 : FanAtpg.Circuit :=
    { c with faultSite := some faultSiteId, faultType := faultType,
             lines := c.lines.map (fun l =>
               if l.id == faultSiteId then
                 { l with isFaultSite := true, faultType := faultType }
               else l) }
  match c1.getLine faultSiteId with
  | some l =>
      if l.value != .X then
        (c1.setLineValueRaw faultSiteId .X).setLineValue faultSiteId l.value
      else c1
  | none => c1

/-- The loop of `Circuit.SimulateForward`: for each gate whose output is X,
evaluate it and assign the output when the result is non-X, recording whether
anything changed.  (The source's `addToDFrontier` call inside this loop is
guarded by `newValue == X` inside the `newValue != X` branch and is
unreachable.) -/
def simulateForwardGo : FanAtpg.Circuit → List FanAtpg.Gate → Bool →
    FanAtpg.Circuit × Bool
  | c, [], changed => (c, changed)
  | c, g :: rest, changed =>
      if c.lineValue g.output == .X then
        let newValue := Gate.evaluate c g
        if newValue != .X then
          simulateForwardGo (c.setLineValueRaw g.output newValue) rest true
        else
          simulateForwardGo c rest changed
      else
        simulateForwardGo c rest changed

/-- `Circuit.SimulateForward`. -/
def Circuit.simulateForward (c : FanAtpg.Circuit) : FanAtpg.Circuit × Bool :=
  simulateForwardGo c c.gates false

/-- `Circuit.CheckTestStatus`: some primary output carries D or Dnot. -/
def Circuit.checkTestStatus (c : FanAtpg.Circuit) : Bool :=
  c.outputs.any (fun id => (c.lineValue id).isFaulty)

/-- `Circuit.GetCurrentTest`: the current primary-input assignment by name. -/
def Circuit.getCurrentTest (c : FanAtpg.Circuit) : List (String × FanAtpg.LogicValue) :=
  c.inputs.map (fun id =>
    match c.getLine id with
    | some l => (l.name, l.value)
    | none => ("", .X))

/-! ## Topology: free/bound marking (topology.go, both variants) -/

/-- Whether the line with this id is currently marked bound. -/
def Circuit.lineIsBound (c : FanAtpg.Circuit) (id : Nat) : Bool :=
  ((c.getLine id).map Line.isBound).getD false

/-- Mark one line bound (IsBound = true, IsFree = false). -/
def Circuit.markBound (c : FanAtpg.Circuit) (id : Nat) : FanAtpg.Circuit :=
  { c with lines := c.lines.map (fun l =>
      if l.id == id then { l with isBound := true, isFree := false } else l) }

/-- The output lines of the gates consuming the given line
(`startLine.OutputGates[i].Output` in the source). -/
def Circuit.consumerOutputs (c : FanAtpg.Circuit) (id : Nat) : List Nat :=
  match c.getLine id with
  | some l => l.outputGates.filterMap (fun gid => (c.getGate gid).map Gate.output)
  | none => []

/-- `Topology.markReachableLines`, first variant (and, identically, the
`Circuit.markReachableLines` used by `Circuit.AnalyzeTopology`): mark the
starting line itself bound, then recurse into every consumer gate's output.
The `fuel` argument bounds the recursion depth; depth `lines+1` suffices on
acyclic circuits because a line already bound is never re-expanded. -/
def markReachV1 : Nat → FanAtpg.Circuit → Nat → FanAtpg.Circuit
  | 0, c, _ => c
  | fuel + 1, c, id =>
      if c.lineIsBound id then c
      else
        let c1 := c.markBound id
        (c1.consumerOutputs id).foldl (fun acc out => markReachV1 fuel acc out) c1

/-- `Topology.markReachableLines`, second variant (gate.go around line 1180):
marks only the consumer-gate outputs bound, never the starting line itself. -/
def markReachV2 : Nat → FanAtpg.Circuit → Nat → FanAtpg.Circuit
  | 0, c, _ => c
  | fuel + 1, c, id =>
      (c.consumerOutputs id).foldl
        (fun acc out =>
          if acc.lineIsBound out then acc
          else markReachV2 fuel (acc.markBound out) out)
        c

/-- `Topology.IdentifyFanoutPoints`: lines consumed by more than one gate. -/
def Circuit.fanoutPoints (c : FanAtpg.Circuit) : List Nat :=
  (c.lines.filter (fun l => l.outputGates.length > 1)).map Line.id

/-- Reset every line to free (the seeding step of
`IdentifyFreeAndBoundRegions`). -/
def Circuit.resetFreeBound (c : FanAtpg.Circuit) : FanAtpg.Circuit :=
  { c with lines := c.lines.map (fun l => { l with isFree := true, isBound := false }) }

/-- `Topology.IdentifyFreeAndBoundRegions` with the first marking variant. -/
def identifyFreeAndBoundRegionsV1 (c : FanAtpg.Circuit) : FanAtpg.Circuit :=
  let c1 := c.resetFreeBound
  c1.fanoutPoints.foldl (fun acc fp => markReachV1 (acc.lines.length + 1) acc fp) c1

/-- `Topology.IdentifyFreeAndBoundRegions` with the second marking variant. -/
def identifyFreeAndBoundRegionsV2 (c : FanAtpg.Circuit) : FanAtpg.Circuit :=
  let c1 := c.resetFreeBound
  c1.fanoutPoints.foldl (fun acc fp => markReachV2 (acc.lines.length + 1) acc fp) c1

/-! ## Frontier manager (frontier part of the algorithm package)

The algorithm package's `Frontier` struct keeps its own `DFrontier` and
`JFrontier` slices, distinct from the circuit's; `AlgState` bundles the
circuit with those two lists. -/

structure AlgState where
  c : FanAtpg.Circuit
  dFrontier : List Nat
  jFrontier : List Nat
deriving DecidableEq, Repr, Inhabited

/-- `Frontier.isGateInDFrontier`: at least one faulty input, output X, and
the gate is sensitizable. -/
def isGateInDFrontier (c : FanAtpg.Circuit) (g : FanAtpg.Gate) : Bool :=
  Gate.hasFaultyInput c g && c.lineValue g.output == .X && Gate.isSensitizable c g

/-- `Frontier.isGateInJFrontier`: output assigned, some input unassigned. -/
def isGateInJFrontier (c : FanAtpg.Circuit) (g : FanAtpg.Gate) : Bool :=
  c.lineValue g.output != .X && g.inputs.any (fun id => c.lineValue id == .X)

/-- `Frontier.UpdateDFrontier`: rebuild the D-frontier by scanning all gates
(in traversal order) and update every gate's `IsInDFrontier` flag. -/
def Frontier.updateDFrontier (s : FanAtpg.AlgState) : FanAtpg.AlgState :=
  let c := s.c
  { s with
    c := { c with gates := c.gates.map (fun g =>
            { g with isInDFrontier := isGateInDFrontier c g }) },
    dFrontier := (c.gates.filter (fun g => isGateInDFrontier c g)).map Gate.id }

/-- `Frontier.UpdateJFrontier`. -/
def Frontier.updateJFrontier (s : FanAtpg.AlgState) : FanAtpg.AlgState :=
  { s with jFrontier := (s.c.gates.filter (fun g => isGateInJFrontier s.c g)).map Gate.id }

/-- `Frontier.countUnassignedInputs`. -/
def countUnassignedInputs (c : FanAtpg.Circuit) (g : FanAtpg.Gate) : Nat :=
  (g.inputs.filter (fun id => c.lineValue id == .X)).length

/-- Ordered insertion for the frontier-selection sorts: `keyLt a b` is the
`less` closure handed to Go's `sort.Slice`.  `sort.Slice` promises only a
sorted permutation (it is explicitly unstable); ordered insertion produces
one such permutation and is used as its model. -/
def insertByLt {α : Type} (keyLt : α → α → Bool) (a : α) : List α → List α
  | [] => [a]
  | b :: rest => if keyLt b a then b :: insertByLt keyLt a rest else a :: b :: rest

/-- Insertion sort by a boolean comparator (model of `sort.Slice`). -/
def sortByLt {α : Type} (keyLt : α → α → Bool) : List α → List α
  | [] => []
  | a :: rest => insertByLt keyLt a (sortByLt keyLt rest)

/-- `Frontier.GetDFrontierGate`: sort the D-frontier by ascending number of
inputs (the comparator looks at nothing else) and return the first gate;
the sorted order is written back (sort.Slice sorts in place). -/
def Frontier.getDFrontierGate (s : FanAtpg.AlgState) :
    FanAtpg.AlgState × Option FanAtpg.Gate :=
  if s.dFrontier.isEmpty then (s, none)
  else
    let gs := s.dFrontier.filterMap s.c.getGate
    let sorted := sortByLt (fun a b => a.inputs.length < b.inputs.length) gs
    ({ s with dFrontier := sorted.map Gate.id }, sorted.head?)

/-- `Frontier.GetJFrontierGate`: sort the J-frontier by ascending number of
unassigned inputs and return the first gate. -/
def Frontier.getJFrontierGate (s : FanAtpg.AlgState) :
    FanAtpg.AlgState × Option FanAtpg.Gate :=
  if s.jFrontier.isEmpty then (s, none)
  else
    let gs := s.jFrontier.filterMap s.c.getGate
    let sorted := sortByLt
      (fun a b => countUnassignedInputs s.c a < countUnassignedInputs s.c b) gs
    ({ s with jFrontier := sorted.map Gate.id }, sorted.head?)

/-- An initial objective (line, target value) as in objective.go. -/
structure InitialObjective where
  line : Nat
  value : FanAtpg.LogicValue
deriving DecidableEq, Repr, Inhabited

/-- `Frontier.GetObjectivesFromDFrontier`: choose the D-frontier gate and ask
for the non-controlling value on each of its unassigned non-faulty inputs. -/
def Frontier.getObjectivesFromDFrontier (s : FanAtpg.AlgState) :
    FanAtpg.AlgState × List FanAtpg.InitialObjective :=
  if s.dFrontier.isEmpty then (s, [])
  else
    match Frontier.getDFrontierGate s with
    | (s1, none) => (s1, [])
    | (s1, some gate) =>
        let ncv := gate.getNonControllingValue
        (s1, (gate.inputs.filter (fun id =>
                !(s1.c.lineValue id).isFaulty && s1.c.lineValue id == .X)).map
              (fun id => { line := id, value := ncv }))

/-- The input-scan for an AND gate with output Zero in
`GetObjectivesFromJFrontier` (pick the first unassigned input). -/
def firstUnassigned (c : FanAtpg.Circuit) (ids : List Nat) : Option Nat :=
  ids.find? (fun id => c.lineValue id == .X)

/-- `Frontier.GetObjectivesFromJFrontier`: kind/output-directed objectives;
the NAND/NOR/XOR/XNOR cases produce nothing (left unimplemented in the
source). -/
def Frontier.getObjectivesFromJFrontier (s : FanAtpg.AlgState) :
    FanAtpg.AlgState × List FanAtpg.InitialObjective :=
  if s.jFrontier.isEmpty then (s, [])
  else
    match Frontier.getJFrontierGate s with
    | (s1, none) => (s1, [])
    | (s1, some gate) =>
        let c := s1.c
        let objs : List FanAtpg.InitialObjective :=
          match gate.type with
          | .AND =>
              if c.lineValue gate.output == .One then
                (gate.inputs.filter (fun id => c.lineValue id == .X)).map
                  (fun id => { line := id, value := .One })
              else if c.lineValue gate.output == .Zero then
                match firstUnassigned c gate.inputs with
                | some id => [{ line := id, value := .Zero }]
                | none => []
              else []
          | .OR =>
              if c.lineValue gate.output == .Zero then
                (gate.inputs.filter (fun id => c.lineValue id == .X)).map
                  (fun id => { line := id, value := .Zero })
              else if c.lineValue gate.output == .One then
                match firstUnassigned c gate.inputs with
                | some id => [{ line := id, value := .One }]
                | none => []
              else []
          | .NOT =>
              match gate.inputs with
              | [i0] =>
                  if c.lineValue i0 == .X then
                    let inputVal :=
                      match c.lineValue gate.output with
                      | .Zero => FanAtpg.LogicValue.One
                      | .One => FanAtpg.LogicValue.Zero
                      | .D => FanAtpg.LogicValue.Dnot
                      | .Dnot => FanAtpg.LogicValue.D
                      | .X => FanAtpg.LogicValue.X
                    [{ line := i0, value := inputVal }]
                  else []
              | _ => []
          | _ => []
        (s1, objs)

/-! ## Implication engine (implication.go) -/

/-- `Implication.HasConflict` from implication.go: a gate with all inputs
assigned, output assigned and a non-X simulated value that differs from the
assigned output; or a fault-site value equal to the fault type; or a
fault-site value incompatible with the fault polarity (stuck-at-0 site at
One or D, stuck-at-1 site at Zero or Dnot). -/
def hasConflict (c : FanAtpg.Circuit) : Bool :=
  (c.gates.any (fun g =>
    c.lineValue g.output != .X &&
    Gate.isInputsAssigned c g &&
    Gate.evaluate c g != .X &&
    c.lineValue g.output != Gate.evaluate c g)) ||
  (match c.faultSite with
   | some fsId =>
       let v := c.lineValue fsId
       v != .X &&
         (v == c.faultType ||
          (c.faultType == .Zero && (v == .One || v == .D)) ||
          (c.faultType == .One && (v == .Zero || v == .Dnot)))
   | none => false)

/-- `Implication.ImplyForward`: run the circuit's forward simulation, then
fail if `HasConflict` holds. -/
def Implication.implyForward (s : FanAtpg.AlgState) :
    FanAtpg.AlgState × Bool × Option String :=
  let (c1, changed) := s.c.simulateForward
  let s1 := { s with c := c1 }
  if hasConflict c1 then
    (s1, false, some "conflict detected during forward implication")
  else
    (s1, changed, none)

/-- The per-input scan of the AND/NAND (and, dually, OR/NOR) case of
`ImplyBackward`: set unassigned inputs to the non-controlling value; an input
already assigned to a different non-faulty value aborts with a conflict. -/
def implyBackwardInputs (c : FanAtpg.Circuit) (nonControlVal : FanAtpg.LogicValue) :
    List Nat → Bool → FanAtpg.Circuit × Bool × Option String
  | [], changed => (c, changed, none)
  | id :: rest, changed =>
      if c.lineValue id == .X then
        implyBackwardInputs (c.setLineValue id nonControlVal) nonControlVal rest true
      else if c.lineValue id != nonControlVal &&
              c.lineValue id != .D && c.lineValue id != .Dnot then
        (c, changed, some "conflict in backward implication")
      else
        implyBackwardInputs c nonControlVal rest changed

/-- The gate loop of `Implication.ImplyBackward`. -/
def implyBackwardGo : FanAtpg.Circuit → List FanAtpg.Gate → Bool →
    FanAtpg.Circuit × Bool × Option String
  | c, [], changed =>
      if hasConflict c then
        (c, changed, some "conflict detected during backward implication")
      else (c, changed, none)
  | c, g :: rest, changed =>
      if c.lineValue g.output == .X then implyBackwardGo c rest changed
      else
        let outputVal := c.lineValue g.output
        match g.type with
        | .NOT =>
            (match g.inputs with
             | [i0] =>
                 if c.lineValue i0 == .X then
                   let inputVal :=
                     match outputVal with
                     | .Zero => FanAtpg.LogicValue.One
                     | .One => FanAtpg.LogicValue.Zero
                     | .D => FanAtpg.LogicValue.Dnot
                     | .Dnot => FanAtpg.LogicValue.D
                     | .X => FanAtpg.LogicValue.X
                   if inputVal != .X then
                     implyBackwardGo (c.setLineValue i0 inputVal) rest true
                   else implyBackwardGo c rest changed
                 else implyBackwardGo c rest changed
             | _ => implyBackwardGo c rest changed)
        | .BUF =>
            (match g.inputs with
             | [i0] =>
                 if c.lineValue i0 == .X then
                   implyBackwardGo (c.setLineValue i0 outputVal) rest true
                 else implyBackwardGo c rest changed
             | _ => implyBackwardGo c rest changed)
        | .AND | .NAND =>
            let isAND := g.type == .AND
            let outputIsControl := (isAND && outputVal == .Zero) ||
              (!isAND && outputVal == .One)
            if outputIsControl then implyBackwardGo c rest changed
            else
              (match implyBackwardInputs c .One g.inputs changed with
               | (c1, changed1, none) => implyBackwardGo c1 rest changed1
               | (c1, changed1, some e) => (c1, changed1, some e))
        | .OR | .NOR =>
            let isOR := g.type == .OR
            let outputIsControl := (isOR && outputVal == .One) ||
              (!isOR && outputVal == .Zero)
            if outputIsControl then implyBackwardGo c rest changed
            else
              (match implyBackwardInputs c .Zero g.inputs changed with
               | (c1, changed1, none) => implyBackwardGo c1 rest changed1
               | (c1, changed1, some e) => (c1, changed1, some e))
        | _ => implyBackwardGo c rest changed

/-- `Implication.ImplyBackward`. -/
def Implication.implyBackward (s : FanAtpg.AlgState) :
    FanAtpg.AlgState × Bool × Option String :=
  match implyBackwardGo s.c s.c.gates false with
  | (c1, changed, e) => ({ s with c := c1 }, changed, e)

/-! ### Unique sensitization (implication.go, using the path-list variant of
`Topology.FindUniquePathsToOutputs`) -/

/-- `findPathsToPO` from the second topology variant: enumerate every forward
path from a line to a primary output, avoiding lines already on the current
path.  `fuel` bounds recursion depth; `lines + 1` suffices since a path never
repeats a line. -/
def findPathsToPO : Nat → FanAtpg.Circuit → Nat → List Nat → List (List Nat)
  | 0, _, _, _ => []
  | fuel + 1, c, lineId, currentPath =>
      match c.getLine lineId with
      | none => []
      | some l =>
          if l.type == .PrimaryOutput then [currentPath]
          else
            (l.outputGates.filterMap c.getGate).flatMap (fun g =>
              if currentPath.contains g.output then []
              else findPathsToPO fuel c g.output (currentPath ++ [g.output]))

/-- `Topology.FindUniquePathsToOutputs` (path-list variant): all paths from
the gate's output line to primary outputs, each starting with that line. -/
def findUniquePathsToOutputs (c : FanAtpg.Circuit) (g : FanAtpg.Gate) :
    List (List Nat) :=
  findPathsToPO (c.lines.length + 1) c g.output [g.output]

/-- The inner input loop of `ApplyUniqueSensitization`: set every unassigned
input that is not on the path to the non-controlling value. -/
def sensitizeInputs (path : List Nat) (ncv : FanAtpg.LogicValue) :
    FanAtpg.Circuit → List Nat → Bool → FanAtpg.Circuit × Bool
  | c, [], changed => (c, changed)
  | c, id :: rest, changed =>
      if !path.contains id && c.lineValue id == .X then
        sensitizeInputs path ncv (c.setLineValue id ncv) rest true
      else
        sensitizeInputs path ncv c rest changed

/-- The per-line body of `ApplyUniqueSensitization`: skip lines with no
driver or driven by the D-frontier gate itself; otherwise force the driver
gate's unassigned off-path inputs to its non-controlling value. -/
def sensitizeLine (gateId : Nat) (path : List Nat) :
    FanAtpg.Circuit → Nat → Bool → FanAtpg.Circuit × Bool :=
  fun c lineId changed =>
    match c.getLine lineId with
    | none => (c, changed)
    | some l =>
        match l.inputGate with
        | none => (c, changed)
        | some gid =>
            if gid == gateId then (c, changed)
            else
              match c.getGate gid with
              | none => (c, changed)
              | some inputGate =>
                  let ncv := inputGate.getNonControllingValue
                  if ncv != .X then
                    sensitizeInputs path ncv c inputGate.inputs changed
                  else (c, changed)

/-- One path of `ApplyUniqueSensitization`. -/
def sensitizePath (gateId : Nat) (path : List Nat) (c : FanAtpg.Circuit)
    (changed : Bool) : FanAtpg.Circuit × Bool :=
  path.foldl (fun (acc : FanAtpg.Circuit × Bool) lineId =>
    sensitizeLine gateId path acc.1 lineId acc.2) (c, changed)

/-- `Implication.ApplyUniqueSensitization` (never returns an error). -/
def Implication.applyUniqueSensitization (s : FanAtpg.AlgState)
    (gate : FanAtpg.Gate) : FanAtpg.AlgState × Bool :=
  let paths := findUniquePathsToOutputs s.c gate
  if paths.isEmpty then (s, false)
  else
    let (c1, changed) := paths.foldl
      (fun (acc : FanAtpg.Circuit × Bool) path =>
        sensitizePath gate.id path acc.1 acc.2) (s.c, false)
    ({ s with c := c1 }, changed)

/-- One iteration of the `ImplyValues` fixed-point loop plus the recursion on
the remaining iteration budget (the source caps the loop at 100 passes). -/
def implyValuesLoop : Nat → FanAtpg.AlgState → FanAtpg.AlgState × Option String
  | 0, s => (s, none)
  | n + 1, s =>
      match Implication.implyForward s with
      | (s1, _, some e) => (s1, some e)
      | (s1, fwdChanged, none) =>
          match Implication.implyBackward s1 with
          | (s2, _, some e) => (s2, some e)
          | (s2, bwdChanged, none) =>
              let s3 := Frontier.updateJFrontier (Frontier.updateDFrontier s2)
              let (s4, usChanged) :=
                if s3.dFrontier.length == 1 then
                  match s3.dFrontier.head? >>= s3.c.getGate with
                  | some g => Implication.applyUniqueSensitization s3 g
                  | none => (s3, false)
                else (s3, false)
              if fwdChanged || bwdChanged || usChanged then
                implyValuesLoop n s4
              else (s4, none)

/-- `Implication.ImplyValues`: iterate to a fixed point (bounded), then report
a conflict if `HasConflict` holds on the final state. -/
def Implication.implyValues (s : FanAtpg.AlgState) :
    FanAtpg.AlgState × Bool × Option String :=
  match implyValuesLoop 100 s with
  | (s1, some e) => (s1, false, some e)
  | (s1, none) =>
      if hasConflict s1.c then
        (s1, false, some "value conflict detected during implication")
      else (s1, true, none)

/-- The BFS of `CheckIfXPathExists` for one starting faulty line: pop the
queue; a primary output means an X-path exists; otherwise expand through
sensitizable consumer gates. -/
def xPathBFS (c : FanAtpg.Circuit) : Nat → List Nat → List Nat → Bool
  | 0, _, _ => false
  | _ + 1, _, [] => false
  | fuel + 1, visited, current :: queue =>
      match c.getLine current with
      | none => xPathBFS c fuel visited queue
      | some l =>
          if l.type == .PrimaryOutput then true
          else if visited.contains current then xPathBFS c fuel visited queue
          else
            let nexts := (l.outputGates.filterMap c.getGate).filterMap
              (fun g => if Gate.isSensitizable c g then some g.output else none)
            xPathBFS c fuel (current :: visited) (queue ++ nexts)

/-- `Implication.CheckIfXPathExists`: true iff from some faulty line a path
of sensitizable gates reaches a primary output. -/
def Implication.checkIfXPathExists (c : FanAtpg.Circuit) : Bool :=
  let faultyLines := (c.lines.filter Line.isFaulty).map Line.id
  if faultyLines.isEmpty then false
  else
    faultyLines.any (fun fl =>
      xPathBFS c ((c.lines.length + 1) * (c.gates.length + 1) + 1) [] [fl])

/-! ## Multiple backtrace (objective.go) -/

/-- `Objective`: a line with request counts for value 0 and value 1
(Go `int`s, so `Int` here). -/
structure Objective where
  line : Nat
  n0 : Int
  n1 : Int
deriving DecidableEq, Repr, Inhabited

/-- `Objective.GetPreferredValue`: the more requested of 0/1, ties prefer 1. -/
def Objective.getPreferredValue (o : FanAtpg.Objective) : FanAtpg.LogicValue :=
  if o.n0 > o.n1 then .Zero
  else if o.n1 > o.n0 then .One
  else .One

/-- `MultipleBacktrace.SetInitialObjectives` (the conversion step): value 0
seeds (1, 0), value 1 seeds (0, 1), anything else is dropped. -/
def setInitialObjectives (objs : List FanAtpg.InitialObjective) :
    List FanAtpg.Objective :=
  objs.filterMap (fun o =>
    match o.value with
    | .Zero => some { line := o.line, n0 := 1, n1 := 0 }
    | .One => some { line := o.line, n0 := 0, n1 := 1 }
    | _ => none)

/-- `MultipleBacktrace.findEasiestControlInput`: the cached `ControlID` input
if it is in range, otherwise the first input (none when the gate has no
inputs; the source would log an error and return nil there). -/
def findEasiestControlInput (g : FanAtpg.Gate) : Option Nat :=
  if 0 ≤ g.controlID ∧ g.controlID < g.inputs.length then
    g.inputs.get? g.controlID.toNat
  else g.inputs.head?

/-- `MultipleBacktrace.backtraceGate`: push an objective through its driving
gate according to the gate kind. -/
def backtraceGate (g : FanAtpg.Gate) (obj : FanAtpg.Objective) :
    List FanAtpg.Objective :=
  match g.type with
  | .AND | .NAND =>
      let n0 := if g.type == .NAND then obj.n1 else obj.n0
      let n1 := if g.type == .NAND then obj.n0 else obj.n1
      (if n0 > 0 then
        match findEasiestControlInput g with
        | some easiest => [{ line := easiest, n0 := n0, n1 := 0 }]
        | none => []
       else []) ++
      (if n1 > 0 then g.inputs.map (fun id => { line := id, n0 := 0, n1 := n1 })
       else [])
  | .OR | .NOR =>
      let n0 := if g.type == .NOR then obj.n1 else obj.n0
      let n1 := if g.type == .NOR then obj.n0 else obj.n1
      (if n1 > 0 then
        match findEasiestControlInput g with
        | some easiest => [{ line := easiest, n0 := 0, n1 := n1 }]
        | none => []
       else []) ++
      (if n0 > 0 then g.inputs.map (fun id => { line := id, n0 := n0, n1 := 0 })
       else [])
  | .NOT =>
      match g.inputs with
      | [i0] => [{ line := i0, n0 := obj.n1, n1 := obj.n0 }]
      | _ => []
  | .BUF =>
      match g.inputs with
      | [i0] => [{ line := i0, n0 := obj.n0, n1 := obj.n1 }]
      | _ => []
  | .XOR | .XNOR =>
      g.inputs.map (fun id => { line := id, n0 := obj.n0 + obj.n1, n1 := obj.n0 + obj.n1 })

/-- The queue-processing loop of `MultipleBacktrace.PerformBacktrace`: head
lines and primary inputs are emitted as final objectives (without being
marked processed); other lines are expanded through their driving gate and
marked processed. -/
def performBacktraceLoop (c : FanAtpg.Circuit) : Nat → List Nat →
    List FanAtpg.Objective → List FanAtpg.Objective → List FanAtpg.Objective
  | 0, _, _, final => final
  | _ + 1, _, [], final => final
  | fuel + 1, processed, obj :: queue, final =>
      if processed.contains obj.line then
        performBacktraceLoop c fuel processed queue final
      else
        match c.getLine obj.line with
        | none => performBacktraceLoop c fuel processed queue final
        | some l =>
            if l.isHeadLine || l.type == .PrimaryInput then
              performBacktraceLoop c fuel processed queue (final ++ [obj])
            else
              match l.inputGate >>= c.getGate with
              | none => performBacktraceLoop c fuel processed queue final
              | some g =>
                  performBacktraceLoop c fuel (processed ++ [obj.line])
                    (queue ++ backtraceGate g obj) final

/-- The `sort.Slice` comparator on final objectives: stronger preference
(larger absolute n1 - n0) first, then head lines before primary inputs, then
ascending line id. -/
def finalObjLt (c : FanAtpg.Circuit) (a b : FanAtpg.Objective) : Bool :=
  let diffA := a.n1 - a.n0
  let diffB := b.n1 - b.n0
  if diffA.natAbs ≠ diffB.natAbs then diffA.natAbs > diffB.natAbs
  else
    let ha := ((c.getLine a.line).map Line.isHeadLine).getD false
    let hb := ((c.getLine b.line).map Line.isHeadLine).getD false
    if ha ≠ hb then ha
    else a.line < b.line

/-- `PerformBacktrace` followed by `GetBestFinalObjective`: run the queue to
completion, sort the final objectives, and return the top line with its
preferred value ((none, X) when empty). -/
def multipleBacktrace (c : FanAtpg.Circuit)
    (initialObjs : List FanAtpg.InitialObjective) :
    Option Nat × FanAtpg.LogicValue :=
  let cur := setInitialObjectives initialObjs
  let fuel := (c.lines.length + 1) * (c.lines.length + 1) + cur.length + 1
  let final := performBacktraceLoop c fuel [] cur []
  let sorted := sortByLt (finalObjLt c) final
  match sorted.head? with
  | none => (none, .X)
  | some best => (some best.line, best.getPreferredValue)

/-! ## Objective selection (backtrace.go) -/

/-- `Backtrace.BacktraceFromDFrontier`. -/
def Backtrace.backtraceFromDFrontier (s : FanAtpg.AlgState) :
    FanAtpg.AlgState × Option Nat × FanAtpg.LogicValue :=
  match Frontier.getObjectivesFromDFrontier s with
  | (s1, []) => (s1, none, .X)
  | (s1, objs) =>
      match multipleBacktrace s1.c objs with
      | (none, _) => (s1, none, .X)
      | (some line, value) => (s1, some line, value)

/-- `Backtrace.BacktraceFromJFrontier`. -/
def Backtrace.backtraceFromJFrontier (s : FanAtpg.AlgState) :
    FanAtpg.AlgState × Option Nat × FanAtpg.LogicValue :=
  match Frontier.getObjectivesFromJFrontier s with
  | (s1, []) => (s1, none, .X)
  | (s1, objs) =>
      match multipleBacktrace s1.c objs with
      | (none, _) => (s1, none, .X)
      | (some line, value) => (s1, some line, value)

/-- `Backtrace.DirectBacktrace`. -/
def Backtrace.directBacktrace (c : FanAtpg.Circuit) (targetLine : Nat)
    (targetValue : FanAtpg.LogicValue) : Option Nat × FanAtpg.LogicValue :=
  multipleBacktrace c [{ line := targetLine, value := targetValue }]

/-- The D-frontier / J-frontier / test-complete cascade of
`Backtrace.GetNextObjective` (everything after the fault-activation block):
try D-frontier propagation, then J-frontier justification, then report
test-complete, otherwise signal no progress (continue = false). -/
def Backtrace.getNextObjectiveAfterActivation (s : FanAtpg.AlgState) :
    FanAtpg.AlgState × Option Nat × FanAtpg.LogicValue × Bool :=
  let stepD : Sum (FanAtpg.AlgState × Option Nat × FanAtpg.LogicValue × Bool) FanAtpg.AlgState :=
    if !s.dFrontier.isEmpty then
      match Backtrace.backtraceFromDFrontier s with
      | (s1, some line, value) => Sum.inl (s1, some line, value, true)
      | (s1, none, _) => Sum.inr s1
    else Sum.inr s
  match stepD with
  | Sum.inl r => r
  | Sum.inr s1 =>
      let stepJ : Sum (FanAtpg.AlgState × Option Nat × FanAtpg.LogicValue × Bool) FanAtpg.AlgState :=
        if !s1.jFrontier.isEmpty then
          match Backtrace.backtraceFromJFrontier s1 with
          | (s2, some line, value) => Sum.inl (s2, some line, value, true)
          | (s2, none, _) => Sum.inr s2
        else Sum.inr s1
      match stepJ with
      | Sum.inl r => r
      | Sum.inr s2 =>
          if s2.c.checkTestStatus then (s2, none, .X, true)
          else (s2, none, .X, false)

/-- `Backtrace.GetNextObjective`: fault activation first (directly when the
site is a head line or primary input; note that the backtraced activation
result is returned with continue = false in the source), then the
D-frontier / J-frontier / test-complete cascade. -/
def Backtrace.getNextObjective (s : FanAtpg.AlgState) :
    FanAtpg.AlgState × Option Nat × FanAtpg.LogicValue × Bool :=
  match s.c.faultSite with
  | some fsId =>
      if s.c.lineValue fsId == .X then
        let targetValue : FanAtpg.LogicValue :=
          if s.c.faultType == .One then .Zero else .One
        let isDirect :=
          (((s.c.getLine fsId).map Line.isHeadLine).getD false) ||
          (((s.c.getLine fsId).map Line.type).getD .Normal) == .PrimaryInput
        if isDirect then (s, some fsId, targetValue, true)
        else
          match Backtrace.directBacktrace s.c fsId targetValue with
          | (line, value) => (s, line, value, false)
      else Backtrace.getNextObjectiveAfterActivation s
  | none => Backtrace.getNextObjectiveAfterActivation s

/-! ## Decision engine (decision part of backtrace.go) -/

/-- `DecisionNode`: the line set, the value currently applied, whether the
alternative has been tried, and the alternative value. -/
structure DecisionNode where
  line : Nat
  value : FanAtpg.LogicValue
  tried : Bool
  alternative : FanAtpg.LogicValue
deriving DecidableEq, Repr, Inhabited

/-- `oppositeBinaryValue`: One for Zero, Zero for everything else. -/
def oppositeBinaryValue (value : FanAtpg.LogicValue) : FanAtpg.LogicValue :=
  if value == .Zero then .One else .Zero

/-- `Decision.saveCircuitState`: snapshot of every line's value, keyed by id. -/
def saveCircuitState (c : FanAtpg.Circuit) : List (Nat × FanAtpg.LogicValue) :=
  c.lines.map (fun l => (l.id, l.value))

/-- The value-restoring loop of `Decision.restoreCircuitState`: write each
saved value back to the line with that id (raw assignment). -/
def restoreValues (c : FanAtpg.Circuit)
    (state : List (Nat × FanAtpg.LogicValue)) : FanAtpg.Circuit :=
  state.foldl (fun acc p => acc.setLineValueRaw p.1 p.2) c

/-- `Decision.restoreCircuitState`: restore all line values from a snapshot,
then recompute both frontiers. -/
def Decision.restoreCircuitState (s : FanAtpg.AlgState)
    (state : List (Nat × FanAtpg.LogicValue)) : FanAtpg.AlgState :=
  Frontier.updateJFrontier (Frontier.updateDFrontier
    { s with c := restoreValues s.c state })

/-- `Decision.tryValue`: snapshot, set the value, imply; on a conflict (or on
a non-empty D-frontier with no X-path) restore the snapshot and report
failure (with a nil error, as in the source). -/
def Decision.tryValue (s : FanAtpg.AlgState) (lineId : Nat)
    (value : FanAtpg.LogicValue) : FanAtpg.AlgState × Bool × Option String :=
  let savedState := saveCircuitState s.c
  let s1 := { s with c := s.c.setLineValue lineId value }
  match Implication.implyValues s1 with
  | (s2, ok, err) =>
      if err.isSome || !ok then
        (Decision.restoreCircuitState s2 savedState, false, none)
      else
        let s3 := Frontier.updateJFrontier (Frontier.updateDFrontier s2)
        if !s3.dFrontier.isEmpty && !Implication.checkIfXPathExists s3.c then
          (Decision.restoreCircuitState s3 savedState, false, none)
        else
          (s3, true, none)

/-- `Decision.Backtrack`: pop the top decision; if its alternative is untried,
rebuild the circuit from scratch (reset, re-inject the fault if one is
registered, re-apply the remaining decisions bottom-up, imply) and try the
alternative; on failure, or if the alternative was already tried, keep
backtracking.  An empty stack is the no-test-possible outcome.  The Lean
stack holds the most recent decision at the head (Go appends to the slice
end), so popping the Go slice's last element is taking the list head here,
and the bottom-up re-application walks the reversed list. -/
def Decision.backtrack (s : FanAtpg.AlgState) :
    List FanAtpg.DecisionNode →
      FanAtpg.AlgState × List FanAtpg.DecisionNode × Bool × Option String
  | [] => (s, [], false, some "no test possible, decision stack empty")
  | node :: rest =>
      if !node.tried then
        let c1 := s.c.reset
        let c2 :=
          match c1.faultSite with
          | some fsId => c1.injectFault fsId c1.faultType
          | none => c1
        let c3 := rest.reverse.foldl (fun acc nd => acc.setLineValue nd.line nd.value) c2
        match Implication.implyValues { s with c := c3 } with
        | (s4, _, some e) => (s4, rest, false, some e)
        | (s4, _, none) =>
            match Decision.tryValue s4 node.line node.alternative with
            | (s5, true, _) =>
                (s5, { node with value := node.alternative, tried := true } :: rest,
                 true, none)
            | (s5, false, _) => Decision.backtrack s5 rest
      else Decision.backtrack s rest

/-- `Decision.MakeDecision`: ask for the next objective; with no objective,
report success if the test condition already holds, otherwise backtrack; with
an objective, try the preferred value, then its complement, then backtrack. -/
def Decision.makeDecision (s : FanAtpg.AlgState)
    (stack : List FanAtpg.DecisionNode) :
    FanAtpg.AlgState × List FanAtpg.DecisionNode × Bool × Option String :=
  match Backtrace.getNextObjective s with
  | (s1, lineOpt, value, shouldContinue) =>
      if !shouldContinue then Decision.backtrack s1 stack
      else
        match lineOpt with
        | none =>
            if s1.c.checkTestStatus then (s1, stack, true, none)
            else Decision.backtrack s1 stack
        | some line =>
            let node : FanAtpg.DecisionNode :=
              { line := line, value := value, tried := false,
                alternative := oppositeBinaryValue value }
            match Decision.tryValue s1 line value with
            | (s2, true, _) => (s2, node :: stack, true, none)
            | (s2, false, _) =>
                match Decision.tryValue s2 line node.alternative with
                | (s3, true, _) =>
                    (s3, { node with value := node.alternative, tried := true } :: stack,
                     true, none)
                | (s3, false, _) => Decision.backtrack s3 stack

/-! ## ATPG driver (fan.go) -/

/-- The main loop of `Fan.runFanAlgorithm`, recursing on the remaining
iteration budget (10000 in the source): return success once the test
condition holds; otherwise make one decision, force a forward simulation,
imply, and backtrack on a conflict. -/
def runFanLoop : Nat → FanAtpg.AlgState → List FanAtpg.DecisionNode →
    FanAtpg.AlgState × List FanAtpg.DecisionNode × Bool × Option String
  | 0, s, stack => (s, stack, false, some "iteration limit reached")
  | n + 1, s, stack =>
      if s.c.checkTestStatus then (s, stack, true, none)
      else
        match Decision.makeDecision s stack with
        | (s1, stack1, _, some e) => (s1, stack1, false, some e)
        | (s1, stack1, success, none) =>
            if !success then
              (s1, stack1, false, some "no test possible, decision stack empty")
            else
              let s2 := { s1 with c := s1.c.simulateForward.1 }
              match Implication.implyValues s2 with
              | (s3, ok, err) =>
                  if err.isSome || !ok then
                    match Decision.backtrack s3 stack1 with
                    | (s4, stack2, _, some e) => (s4, stack2, false, some e)
                    | (s4, stack2, success2, none) =>
                        if !success2 then
                          (s4, stack2, false, some "backtracking failed after conflict")
                        else runFanLoop n s4 stack2
                  else
                    runFanLoop n (Frontier.updateJFrontier (Frontier.updateDFrontier s3)) stack1

/-- `Fan.FindTest`: reset the circuit, inject the fault, run the initial
implication (its boolean result is ignored; only an error aborts), recompute
the frontiers, then run the main loop; on success return the current
primary-input assignment, otherwise the error.  (The final unreachable
"no test possible for ... stuck-at-..." formatted message is modelled by a
constant string.) -/
def findTest (c : FanAtpg.Circuit) (faultSiteId : Nat)
    (faultType : FanAtpg.LogicValue) :
    FanAtpg.AlgState × List FanAtpg.DecisionNode ×
      Except String (List (String × FanAtpg.LogicValue)) :=
  let c1 := (c.reset).injectFault faultSiteId faultType
  let s0 : FanAtpg.AlgState := { c := c1, dFrontier := [], jFrontier := [] }
  match Implication.implyValues s0 with
  | (s1, _, some e) => (s1, [], .error e)
  | (s1, _, none) =>
      let s2 := Frontier.updateJFrontier (Frontier.updateDFrontier s1)
      match runFanLoop 10000 s2 [] with
      | (s3, stack, _, some e) => (s3, stack, .error e)
      | (s3, stack, found, none) =>
          if found then (s3, stack, .ok s3.c.getCurrentTest)
          else (s3, stack, .error "no test possible for fault")

/-! ## Two-valued reference semantics

Modelled from the spec: the repository contains no two-valued simulator (its
driver checks only for a D/Dnot marker on a primary output), but the purpose
statement and the soundness property speak of "simulating `v` in the good
circuit and in the faulty circuit" and comparing primary outputs.  The
definitions below give that reference semantics: standard Boolean gate
functions, inputs taken from the test vector, and (for the faulty circuit) a
stuck-at fault forcing one line to a constant. -/

/-- Modelled from the spec: standard Boolean semantics of each gate kind
(spec section 8, algebraic law 1). -/
def specGateFun (t : FanAtpg.GateType) (bs : List Bool) : Bool :=
  match t with
  | .AND => bs.all id
  | .OR => bs.any id
  | .NOT => !(bs.headD false)
  | .NAND => !(bs.all id)
  | .NOR => !(bs.any id)
  | .XOR => bs.foldl xor false
  | .XNOR => !(bs.foldl xor false)
  | .BUF => bs.headD false

/-- Look up an assigned Boolean value in a partial assignment. -/
def asgLookup (asg : List (Nat × Bool)) (id : Nat) : Option Bool :=
  (asg.find? (fun p => p.1 == id)).map Prod.snd

/-- Modelled from the spec: one evaluation pass — every gate whose inputs are
all assigned and whose output is not yet assigned gets its Boolean value,
with the stuck-at fault (if any) overriding the value driven onto its line. -/
def specSimPass (c : FanAtpg.Circuit) (fault : Option (Nat × Bool))
    (asg : List (Nat × Bool)) : List (Nat × Bool) :=
  c.gates.foldl
    (fun acc g =>
      if (asgLookup acc g.output).isSome then acc
      else
        match (g.inputs.mapM (asgLookup acc)) with
        | some bs =>
            let v := specGateFun g.type bs
            let v := match fault with
              | some (fid, fv) => if g.output == fid then fv else v
              | none => v
            acc ++ [(g.output, v)]
        | none => acc)
    asg

/-- Modelled from the spec: simulate a test vector (binary entries only) to a
fixed point; the faulty circuit forces the fault line to its stuck value,
also when the fault line is a primary input. -/
def specSimulate (c : FanAtpg.Circuit) (vector : List (String × FanAtpg.LogicValue))
    (fault : Option (Nat × Bool)) : List (Nat × Bool) :=
  let init : List (Nat × Bool) := c.inputs.filterMap (fun id =>
    match c.getLine id with
    | some l =>
        match fault with
        | some (fid, fv) =>
            if id == fid then some (id, fv)
            else
              match (vector.find? (fun p => p.1 == l.name)).map Prod.snd with
              | some .One => some (id, true)
              | some .Zero => some (id, false)
              | _ => none
        | none =>
            match (vector.find? (fun p => p.1 == l.name)).map Prod.snd with
            | some .One => some (id, true)
            | some .Zero => some (id, false)
            | _ => none
    | none => none)
  (List.range (c.lines.length + 1)).foldl (fun acc _ => specSimPass c fault acc) init

/-- Modelled from the spec: a vector detects the stuck-at fault when the good
and the faulty simulation assign different values to some primary output. -/
def specDetects (c : FanAtpg.Circuit) (faultLine : Nat) (stuckValue : Bool)
    (vector : List (String × FanAtpg.LogicValue)) : Bool :=
  let good := specSimulate c vector none
  let faulty := specSimulate c vector (some (faultLine, stuckValue))
  c.outputs.any (fun oid =>
    match asgLookup good oid, asgLookup faulty oid with
    | some a, some b => a != b
    | _, _ => false)

/-! ## Concrete circuits for the theorems -/

/-- Spec scenario S1: primary inputs a, b; primary output y = AND(a, b). -/
def S1 : FanAtpg.Circuit :=
  { name := "S1",
    gates := [{ id := 1, name := "g1", type := .AND, inputs := [1, 2], output := 3,
                controlID := 0, isInDFrontier := false }],
    lines := [{ NewLine 1 "a" .PrimaryInput with outputGates := [1] },
              { NewLine 2 "b" .PrimaryInput with outputGates := [1] },
              { NewLine 3 "y" .PrimaryOutput with inputGate := some 1 }],
    inputs := [1, 2], outputs := [3], faultSite := none, faultType := .X,
    dFrontier := [], jFrontier := [], headLines := [] }

/-- Spec scenario S3: primary input a; primary output y = NOT(a). -/
def S3 : FanAtpg.Circuit :=
  { name := "S3",
    gates := [{ id := 1, name := "g1", type := .NOT, inputs := [1], output := 2,
                controlID := 0, isInDFrontier := false }],
    lines := [{ NewLine 1 "a" .PrimaryInput with outputGates := [1] },
              { NewLine 2 "y" .PrimaryOutput with inputGate := some 1 }],
    inputs := [1], outputs := [2], faultSite := none, faultType := .X,
    dFrontier := [], jFrontier := [], headLines := [] }

/-- A fanout circuit: a feeds two buffers driving y1 and y2; a is the only
fanout point. -/
def CFan : FanAtpg.Circuit :=
  { name := "CFan",
    gates := [{ id := 1, name := "g1", type := .BUF, inputs := [1], output := 2,
                controlID := 0, isInDFrontier := false },
              { id := 2, name := "g2", type := .BUF, inputs := [1], output := 3,
                controlID := 0, isInDFrontier := false }],
    lines := [{ NewLine 1 "a" .PrimaryInput with outputGates := [1, 2] },
              { NewLine 2 "y1" .PrimaryOutput with inputGate := some 1 },
              { NewLine 3 "y2" .PrimaryOutput with inputGate := some 2 }],
    inputs := [1], outputs := [2, 3], faultSite := none, faultType := .X,
    dFrontier := [], jFrontier := [], headLines := [] }

/-- A one-line circuit whose line currently holds the binary value One, used
to exercise `InjectFault` on a site that already has a value. -/
def C2c : FanAtpg.Circuit :=
  { name := "C2c",
    gates := [],
    lines := [{ NewLine 1 "in1" .PrimaryInput with value := .One }],
    inputs := [1], outputs := [], faultSite := none, faultType := .X,
    dFrontier := [], jFrontier := [], headLines := [] }

/-- An XOR gate with a faulty input: a = D (the stuck-at-1 fault site),
b = 1, output y assigned 1.  Its five-valued evaluation is X. -/
def CXor : FanAtpg.Circuit :=
  { name := "CXor",
    gates := [{ id := 1, name := "g1", type := .XOR, inputs := [1, 2], output := 3,
                controlID := 0, isInDFrontier := false }],
    lines := [{ NewLine 1 "a" .PrimaryInput with
                  value := .D
                  outputGates := [1]
                  isFaultSite := true
                  faultType := .One },
              { NewLine 2 "b" .PrimaryInput with value := .One, outputGates := [1] },
              { NewLine 3 "y" .PrimaryOutput with value := .One, inputGate := some 1 }],
    inputs := [1, 2], outputs := [3], faultSite := some 1, faultType := .One,
    dFrontier := [], jFrontier := [], headLines := [] }

/-- The algorithm state holding `CXor`. -/
def CXorS : FanAtpg.AlgState := { c := CXor, dFrontier := [], jFrontier := [] }

/-- An AND gate with a = 1, b = 1, y = 1 (consistent, fully assigned). -/
def W5 : FanAtpg.Circuit :=
  { name := "W5",
    gates := [{ id := 1, name := "g1", type := .AND, inputs := [1, 2], output := 3,
                controlID := 0, isInDFrontier := false }],
    lines := [{ NewLine 1 "a" .PrimaryInput with value := .One, outputGates := [1] },
              { NewLine 2 "b" .PrimaryInput with value := .One, outputGates := [1] },
              { NewLine 3 "y" .PrimaryOutput with value := .One, inputGate := some 1 }],
    inputs := [1, 2], outputs := [3], faultSite := none, faultType := .X,
    dFrontier := [], jFrontier := [], headLines := [] }

/-- The algorithm state holding `W5`. -/
def W5S : FanAtpg.AlgState := { c := W5, dFrontier := [], jFrontier := [] }

/-- The algorithm state for `S1` with the a stuck-at-0 fault injected. -/
def S1S : FanAtpg.AlgState :=
  { c := (S1.reset).injectFault 1 .Zero, dFrontier := [], jFrontier := [] }

/-- Two AND gates with the same number of inputs, both D-frontier members
(shared faulty input w = D, side inputs at 1, outputs X); the gate list
order [g2, g1] models one legal traversal order of the Go gate map. -/
def S9 : FanAtpg.Circuit :=
  { name := "S9",
    gates := [{ id := 2, name := "g2", type := .AND, inputs := [1, 11], output := 3,
                controlID := 0, isInDFrontier := false },
              { id := 1, name := "g1", type := .AND, inputs := [1, 10], output := 2,
                controlID := 0, isInDFrontier := false }],
    lines := [{ NewLine 1 "w" .Normal with value := .D, outputGates := [1, 2] },
              { NewLine 10 "s10" .PrimaryInput with value := .One, outputGates := [1] },
              { NewLine 11 "s11" .PrimaryInput with value := .One, outputGates := [2] },
              { NewLine 2 "o1" .PrimaryOutput with inputGate := some 1 },
              { NewLine 3 "o2" .PrimaryOutput with inputGate := some 2 }],
    inputs := [10, 11], outputs := [2, 3], faultSite := none, faultType := .X,
    dFrontier := [], jFrontier := [], headLines := [] }

/-- The algorithm state holding `S9`. -/
def S9S : FanAtpg.AlgState := { c := S9, dFrontier := [], jFrontier := [] }

/-! ## Theorems -/

/-- C1.  The claim asserts that a test vector returned by `FindTest` always
distinguishes the good from the faulty circuit.  On the code, `FindTest`
cannot return a test vector at all: no operation ever converts the fault-site
value into a D/Dnot marker (`Line.SetValue` stores the plain value and
`InjectFault` re-applies it unchanged), so no primary output ever becomes
faulty and the driver reports an error for every fault.  Concretely, for the
spec's scenario S1 (y = AND(a, b), fault a stuck-at-0) `findTest` returns the
"no test possible" error even though the vector a = 1, b = 1 detects the
fault under the spec's good/faulty two-valued simulation. -/
theorem C1_findTest_misses_detectable_fault :
    (FanAtpg.findTest FanAtpg.S1 1 .Zero).2.2 =
      Except.error "no test possible, decision stack empty" ∧
    FanAtpg.specDetects FanAtpg.S1 1 false [("a", .One), ("b", .One)] = true := by
  constructor
  · rfl
  · decide

/-- C2.  The claim says a fault-site line taking the binary value 1 - v is
stored as the corresponding D/Dnot marker, and that `InjectFault` re-applies
a held binary value through that conversion.  In the code `Line.SetValue` is
a plain assignment and the `InjectFault` re-application therefore stores the
binary value unchanged: injecting stuck-at-0 on a line holding One leaves
One (not a faulty marker), and `SetValue` of One on a marked stuck-at-0 site
stores One. -/
theorem C2_setValue_performs_no_conversion :
    (FanAtpg.C2c.injectFault 1 .Zero).lineValue 1 = .One ∧
    ((FanAtpg.C2c.injectFault 1 .Zero).lineValue 1).isFaulty = false ∧
    (FanAtpg.Line.setValue
      { FanAtpg.NewLine 1 "in1" .PrimaryInput with
          isFaultSite := true, faultType := .Zero } .One).value = .One := by
  refine ⟨by decide, by decide, by decide⟩

/-- C3 counterexample.  The claim says an exhausted search yields the normal
result Undetectable rather than an exceptional/error outcome; on the spec's
scenario S3 (y = NOT(a), fault a stuck-at-0) the search exhausts and
`findTest` returns a Go error value. -/
theorem C3_counterexample_error_outcome :
    (FanAtpg.findTest FanAtpg.S3 1 .Zero).2.2 =
      Except.error "no test possible, decision stack empty" := by
  rfl

/-- C3 amended.  When the decision stack is exhausted, `Backtrack` returns
ok = false together with the error "no test possible, decision stack empty",
and `findTest` propagates that error as its result (with no test vector);
undetectability is reported through the error channel, not as a distinguished
normal result. -/
theorem C3_exhausted_search_reports_error :
    (∀ s : FanAtpg.AlgState,
      FanAtpg.Decision.backtrack s [] =
        (s, [], false, some "no test possible, decision stack empty")) ∧
    (FanAtpg.findTest FanAtpg.S1 1 .Zero).2.2 =
      Except.error "no test possible, decision stack empty" := by
  constructor
  · intro s
    rw [FanAtpg.Decision.backtrack]
  · rfl

/-- C6.  The claim requires every fanout point to be marked bound itself.
The variant of `markReachableLines` at gate.go:1180 marks only the lines
reachable through consumer gates, leaving the fanout point itself free: on a
circuit where line a (id 1) fans out to two buffers, the second variant
leaves a free while the first variant (gate.go:851, the claim's semantics)
marks a and both downstream lines bound. -/
theorem C6_second_variant_leaves_fanout_free :
    (FanAtpg.identifyFreeAndBoundRegionsV2 FanAtpg.CFan).lines.map
        (fun l => (l.id, l.isFree, l.isBound)) =
      [(1, true, false), (2, false, true), (3, false, true)] ∧
    (FanAtpg.identifyFreeAndBoundRegionsV1 FanAtpg.CFan).lines.map
        (fun l => (l.id, l.isFree, l.isBound)) =
      [(1, false, true), (2, false, true), (3, false, true)] := by
  refine ⟨by decide, by decide⟩

/-- C10.  After `Circuit.Reset`, every line value is X, both frontier lists
are empty, the fault site is cleared to none and the fault type to X, and the
per-line topology flags (isFree, isBound, isHeadLine) are unchanged.
Consequently the fault re-injection step of `Decision.Backtrack` (which
resets and then re-injects only when the circuit still records a fault site)
finds no fault site and is a no-op. -/
theorem C10_reset_clears_fault_and_keeps_topology :
    ∀ c : FanAtpg.Circuit,
      ((FanAtpg.Circuit.reset c).lines.all (fun l => l.value == .X)) = true ∧
      (FanAtpg.Circuit.reset c).dFrontier = [] ∧
      (FanAtpg.Circuit.reset c).jFrontier = [] ∧
      (FanAtpg.Circuit.reset c).faultSite = none ∧
      (FanAtpg.Circuit.reset c).faultType = .X ∧
      ((FanAtpg.Circuit.reset c).lines.map
          (fun l => (l.id, l.isFree, l.isBound, l.isHeadLine)) =
        c.lines.map (fun l => (l.id, l.isFree, l.isBound, l.isHeadLine))) ∧
      ((match (FanAtpg.Circuit.reset c).faultSite with
        | some fsId =>
            (FanAtpg.Circuit.reset c).injectFault fsId (FanAtpg.Circuit.reset c).faultType
        | none => FanAtpg.Circuit.reset c) = FanAtpg.Circuit.reset c) := by
  intro c
  refine ⟨?_, rfl, rfl, rfl, rfl, ?_, rfl⟩
  · simp [FanAtpg.Circuit.reset, FanAtpg.Line.resetLine]
  · simp [FanAtpg.Circuit.reset, FanAtpg.Line.resetLine]

/-! ### Lemmas about the AND/OR evaluation loops -/

theorem LogicValue.isFaulty_iff (v : FanAtpg.LogicValue) :
    v.isFaulty = true ↔ v = .D ∨ v = .Dnot := by
  cases v <;> simp [FanAtpg.LogicValue.isFaulty]

/-- On inputs without Zero and without X the AND loop keeps `result = One`
and returns the last faulty input if one exists, else the D-branch value. -/
theorem evalANDAux_clean (vs : List FanAtpg.LogicValue) (hz : .Zero ∉ vs)
    (hx : .X ∉ vs) (hD : Bool) (dT : FanAtpg.LogicValue) :
    FanAtpg.evalANDAux vs .One hD dT =
      (vs.filter (fun v => v.isFaulty)).getLastD (if hD then dT else .One) := by
  induction vs generalizing hD dT with
  | nil => cases hD <;> simp [FanAtpg.evalANDAux]
  | cons v rest ih =>
      have hz' : FanAtpg.LogicValue.Zero ∉ rest := fun h => hz (List.mem_cons_of_mem _ h)
      have hx' : FanAtpg.LogicValue.X ∉ rest := fun h => hx (List.mem_cons_of_mem _ h)
      cases v with
      | Zero => exact absurd (List.mem_cons_self _ _) hz
      | X => exact absurd (List.mem_cons_self _ _) hx
      | One =>
          simp only [FanAtpg.evalANDAux]
          rw [ih hz' hx']
          simp [FanAtpg.LogicValue.isFaulty]
      | D =>
          simp only [FanAtpg.evalANDAux]
          rw [ih hz' hx']
          have hf : List.filter (fun v => v.isFaulty) (.D :: rest) =
              .D :: List.filter (fun v => v.isFaulty) rest := by
            simp [FanAtpg.LogicValue.isFaulty]
          rw [hf, List.getLastD_cons]
          simp
      | Dnot =>
          simp only [FanAtpg.evalANDAux]
          rw [ih hz' hx']
          have hf : List.filter (fun v => v.isFaulty) (.Dnot :: rest) =
              .Dnot :: List.filter (fun v => v.isFaulty) rest := by
            simp [FanAtpg.LogicValue.isFaulty]
          rw [hf, List.getLastD_cons]
          simp

/-- A Zero input short-circuits the AND loop. -/
theorem evalANDAux_of_zero (vs : List FanAtpg.LogicValue) (h : .Zero ∈ vs) :
    ∀ r hD dT, FanAtpg.evalANDAux vs r hD dT = .Zero := by
  induction vs with
  | nil => cases h
  | cons v rest ih =>
      intro r hD dT
      cases v with
      | Zero => rfl
      | X => exact ih (by simpa using h) _ _ _
      | One => exact ih (by simpa using h) _ _ _
      | D => exact ih (by simpa using h) _ _ _
      | Dnot => exact ih (by simpa using h) _ _ _

/-- Once `result` is X and no Zero remains, the AND loop returns X. -/
theorem evalANDAux_x_acc (vs : List FanAtpg.LogicValue) (hz : .Zero ∉ vs) :
    ∀ hD dT, FanAtpg.evalANDAux vs .X hD dT = .X := by
  induction vs with
  | nil => intro hD dT; simp [FanAtpg.evalANDAux]
  | cons v rest ih =>
      intro hD dT
      have hz' : FanAtpg.LogicValue.Zero ∉ rest := fun h => hz (List.mem_cons_of_mem _ h)
      cases v with
      | Zero => exact absurd (List.mem_cons_self _ _) hz
      | X => exact ih hz' _ _
      | One => exact ih hz' _ _
      | D => exact ih hz' _ _
      | Dnot => exact ih hz' _ _

/-- With no Zero input but some X input, `evaluateAND` yields X. -/
theorem evalAND_of_x (vs : List FanAtpg.LogicValue) (hz : .Zero ∉ vs)
    (hx : .X ∈ vs) : FanAtpg.evalAND vs = .X := by
  unfold FanAtpg.evalAND
  have main : ∀ (l : List FanAtpg.LogicValue), FanAtpg.LogicValue.Zero ∉ l →
      FanAtpg.LogicValue.X ∈ l → ∀ hD dT, FanAtpg.evalANDAux l .One hD dT = .X := by
    intro l
    induction l with
    | nil => intro _ hmem; cases hmem
    | cons v rest ih =>
        intro hz0 hx0 hD dT
        have hz' : FanAtpg.LogicValue.Zero ∉ rest := fun h => hz0 (List.mem_cons_of_mem _ h)
        cases v with
        | Zero => exact absurd (List.mem_cons_self _ _) hz0
        | X => exact evalANDAux_x_acc rest hz' _ _
        | One => exact ih hz' (by simpa using hx0) _ _
        | D => exact ih hz' (by simpa using hx0) _ _
        | Dnot => exact ih hz' (by simpa using hx0) _ _
  exact main vs hz hx _ _

/-- A One input short-circuits the OR loop. -/
theorem evalORAux_of_one (vs : List FanAtpg.LogicValue) (h : .One ∈ vs) :
    ∀ r hD dT, FanAtpg.evalORAux vs r hD dT = .One := by
  induction vs with
  | nil => cases h
  | cons v rest ih =>
      intro r hD dT
      cases v with
      | One => rfl
      | X => exact ih (by simpa using h) _ _ _
      | Zero => exact ih (by simpa using h) _ _ _
      | D => exact ih (by simpa using h) _ _ _
      | Dnot => exact ih (by simpa using h) _ _ _

/-- Once `result` is X and no One remains, the OR loop returns X. -/
theorem evalORAux_x_acc (vs : List FanAtpg.LogicValue) (ho : .One ∉ vs) :
    ∀ hD dT, FanAtpg.evalORAux vs .X hD dT = .X := by
  induction vs with
  | nil => intro hD dT; simp [FanAtpg.evalORAux]
  | cons v rest ih =>
      intro hD dT
      have ho' : FanAtpg.LogicValue.One ∉ rest := fun h => ho (List.mem_cons_of_mem _ h)
      cases v with
      | One => exact absurd (List.mem_cons_self _ _) ho
      | X => exact ih ho' _ _
      | Zero => exact ih ho' _ _
      | D => exact ih ho' _ _
      | Dnot => exact ih ho' _ _

/-- With no One input but some X input, `evaluateOR` yields X. -/
theorem evalOR_of_x (vs : List FanAtpg.LogicValue) (ho : .One ∉ vs)
    (hx : .X ∈ vs) : FanAtpg.evalOR vs = .X := by
  unfold FanAtpg.evalOR
  have main : ∀ (l : List FanAtpg.LogicValue), FanAtpg.LogicValue.One ∉ l →
      FanAtpg.LogicValue.X ∈ l → ∀ hD dT, FanAtpg.evalORAux l .Zero hD dT = .X := by
    intro l
    induction l with
    | nil => intro _ hmem; cases hmem
    | cons v rest ih =>
        intro ho0 hx0 hD dT
        have ho' : FanAtpg.LogicValue.One ∉ rest := fun h => ho0 (List.mem_cons_of_mem _ h)
        cases v with
        | One => exact absurd (List.mem_cons_self _ _) ho0
        | X => exact evalORAux_x_acc rest ho' _ _
        | Zero => exact ih ho' (by simpa using hx0) _ _
        | D => exact ih ho' (by simpa using hx0) _ _
        | Dnot => exact ih ho' (by simpa using hx0) _ _
  exact main vs ho hx _ _

/-- The circuit and gate for the C7 counterexample: an AND gate whose inputs
carry D and Dnot, with no Zero and no X among them. -/
def C7g : FanAtpg.Gate :=
  { id := 1, name := "g1", type := .AND, inputs := [1, 2], output := 3,
    controlID := 0, isInDFrontier := false }

def C7c : FanAtpg.Circuit :=
  { name := "C7c",
    gates := [FanAtpg.C7g],
    lines := [{ NewLine 1 "a" .PrimaryInput with value := .D, outputGates := [1] },
              { NewLine 2 "b" .PrimaryInput with value := .Dnot, outputGates := [1] },
              { NewLine 3 "y" .PrimaryOutput with inputGate := some 1 }],
    inputs := [1, 2], outputs := [3], faultSite := none, faultType := .X,
    dFrontier := [], jFrontier := [], headLines := [] }

/-- C7 counterexample.  An AND gate whose inputs are exactly [D, Dnot] (both
markers present, no Zero, no X) evaluates to Dnot, not to Zero as the claim
states: `evaluateAND` keeps only the last faulty marker seen. -/
theorem C7_counterexample_mixed_markers :
    FanAtpg.C7c.inputValues FanAtpg.C7g = [.D, .Dnot] ∧
    FanAtpg.Gate.evaluate FanAtpg.C7c FanAtpg.C7g = .Dnot ∧
    FanAtpg.Gate.evaluate FanAtpg.C7c FanAtpg.C7g ≠ .Zero := by
  refine ⟨by decide, by decide, by decide⟩

/-- C7 amended.  For every AND input list containing both D and Dnot, with no
Zero and no X, `evaluateAND` returns the marker of the **last** faulty input
in input order (the loop's `dType` accumulator), not Zero. -/
theorem C7_and_mixed_returns_last_marker (vs : List FanAtpg.LogicValue)
    (hD : .D ∈ vs) (hDnot : .Dnot ∈ vs) (hz : .Zero ∉ vs) (hx : .X ∉ vs) :
    FanAtpg.evalGate .AND vs =
      (vs.filter (fun v => v.isFaulty)).getLastD .X ∧
    FanAtpg.evalGate .AND vs ≠ .Zero := by
  have hfilter : FanAtpg.LogicValue.D ∈ vs.filter (fun v => v.isFaulty) := by
    simp [List.mem_filter, hD, FanAtpg.LogicValue.isFaulty]
  have hne : vs.filter (fun v => v.isFaulty) ≠ [] := by
    intro h
    rw [h] at hfilter
    cases hfilter
  obtain ⟨w, hw⟩ : ∃ w, (vs.filter (fun v => v.isFaulty)).getLast? = some w := by
    cases hL : (vs.filter (fun v => v.isFaulty)).getLast? with
    | some w => exact ⟨w, rfl⟩
    | none => exact absurd (List.getLast?_eq_none_iff.mp hL) hne
  have heval : FanAtpg.evalGate .AND vs =
      (vs.filter (fun v => v.isFaulty)).getLastD .X := by
    show FanAtpg.evalAND vs = _
    unfold FanAtpg.evalAND
    rw [evalANDAux_clean vs hz hx false .X]
    rw [List.getLastD_eq_getLast?, List.getLastD_eq_getLast?, hw]
    rfl
  refine ⟨heval, ?_⟩
  rw [heval]
  rw [List.getLastD_eq_getLast?, hw]
  simp only [Option.getD_some]
  have hwmem : w ∈ vs.filter (fun v => v.isFaulty) := by
    have := List.getLast?_eq_getLast _ hne
    rw [hw] at this
    have hwe : w = (vs.filter (fun v => v.isFaulty)).getLast hne := by
      exact Option.some.inj this
    rw [hwe]
    exact List.getLast_mem hne
  rw [List.mem_filter] at hwmem
  rcases (LogicValue.isFaulty_iff _).mp hwmem.2 with h | h <;> rw [h] <;> intro hk <;> cases hk

/-- Witness for C7's amended statement at the concrete input [D, Dnot]. -/
theorem C7_and_mixed_witness :
    (FanAtpg.LogicValue.D ∈ [FanAtpg.LogicValue.D, FanAtpg.LogicValue.Dnot] ∧
     FanAtpg.LogicValue.Dnot ∈ [FanAtpg.LogicValue.D, FanAtpg.LogicValue.Dnot] ∧
     FanAtpg.LogicValue.Zero ∉ [FanAtpg.LogicValue.D, FanAtpg.LogicValue.Dnot] ∧
     FanAtpg.LogicValue.X ∉ [FanAtpg.LogicValue.D, FanAtpg.LogicValue.Dnot]) ∧
    FanAtpg.evalGate .AND [.D, .Dnot] =
      (([FanAtpg.LogicValue.D, .Dnot].filter (fun v => v.isFaulty)).getLastD .X) ∧
    FanAtpg.evalGate .AND [.D, .Dnot] ≠ .Zero := by
  refine ⟨⟨by decide, by decide, by decide, by decide⟩, ?_, ?_⟩
  · exact (C7_and_mixed_returns_last_marker [.D, .Dnot] (by decide) (by decide)
      (by decide) (by decide)).1
  · exact (C7_and_mixed_returns_last_marker [.D, .Dnot] (by decide) (by decide)
      (by decide) (by decide)).2

/-! ### Monotonicity of gate evaluation (C8) -/

theorem evalXOR_len_ne_two (vs : List FanAtpg.LogicValue) (h : vs.length ≠ 2) :
    FanAtpg.evalXOR vs = .X := by
  match vs with
  | [] => rfl
  | [a] => rfl
  | [a, b] => exact absurd rfl h
  | a :: b :: c :: rest => rfl

theorem evalNOT_len_ne_one (vs : List FanAtpg.LogicValue) (h : vs.length ≠ 1) :
    FanAtpg.evalNOT vs = .X := by
  match vs with
  | [] => rfl
  | [a] => exact absurd rfl h
  | a :: b :: rest => rfl

theorem evalBUF_len_ne_one (vs : List FanAtpg.LogicValue) (h : vs.length ≠ 1) :
    FanAtpg.evalBUF vs = .X := by
  match vs with
  | [] => rfl
  | [a] => exact absurd rfl h
  | a :: b :: rest => rfl

/-- Refining one X input of `evaluateAND` either leaves the output unchanged
or the unrefined output was already X. -/
theorem evalAND_refine (l₁ l₂ : List FanAtpg.LogicValue) (v : FanAtpg.LogicValue) :
    FanAtpg.evalAND (l₁ ++ v :: l₂) = FanAtpg.evalAND (l₁ ++ .X :: l₂) ∨
      FanAtpg.evalAND (l₁ ++ .X :: l₂) = .X := by
  by_cases hz : (FanAtpg.LogicValue.Zero : FanAtpg.LogicValue) ∈ l₁ ++ .X :: l₂
  · left
    have hz1 : (FanAtpg.LogicValue.Zero ∈ l₁) ∨ (FanAtpg.LogicValue.Zero ∈ l₂) := by
      rcases List.mem_append.mp hz with h | h
      · exact Or.inl h
      · rcases List.mem_cons.mp h with h | h
        · cases h
        · exact Or.inr h
    have hz2 : (FanAtpg.LogicValue.Zero : FanAtpg.LogicValue) ∈ l₁ ++ v :: l₂ := by
      rcases hz1 with h | h
      · exact List.mem_append.mpr (Or.inl h)
      · exact List.mem_append.mpr (Or.inr (List.mem_cons_of_mem _ h))
    calc FanAtpg.evalAND (l₁ ++ v :: l₂) = .Zero := evalANDAux_of_zero _ hz2 _ _ _
      _ = FanAtpg.evalAND (l₁ ++ .X :: l₂) := (evalANDAux_of_zero _ hz _ _ _).symm
  · right
    exact evalAND_of_x _ hz (by simp)

/-- Refining one X input of `evaluateOR` either leaves the output unchanged
or the unrefined output was already X. -/
theorem evalOR_refine (l₁ l₂ : List FanAtpg.LogicValue) (v : FanAtpg.LogicValue) :
    FanAtpg.evalOR (l₁ ++ v :: l₂) = FanAtpg.evalOR (l₁ ++ .X :: l₂) ∨
      FanAtpg.evalOR (l₁ ++ .X :: l₂) = .X := by
  by_cases ho : (FanAtpg.LogicValue.One : FanAtpg.LogicValue) ∈ l₁ ++ .X :: l₂
  · left
    have ho1 : (FanAtpg.LogicValue.One ∈ l₁) ∨ (FanAtpg.LogicValue.One ∈ l₂) := by
      rcases List.mem_append.mp ho with h | h
      · exact Or.inl h
      · rcases List.mem_cons.mp h with h | h
        · cases h
        · exact Or.inr h
    have ho2 : (FanAtpg.LogicValue.One : FanAtpg.LogicValue) ∈ l₁ ++ v :: l₂ := by
      rcases ho1 with h | h
      · exact List.mem_append.mpr (Or.inl h)
      · exact List.mem_append.mpr (Or.inr (List.mem_cons_of_mem _ h))
    calc FanAtpg.evalOR (l₁ ++ v :: l₂) = .One := evalORAux_of_one _ ho2 _ _ _
      _ = FanAtpg.evalOR (l₁ ++ .X :: l₂) := (evalORAux_of_one _ ho _ _ _).symm
  · right
    exact evalOR_of_x _ ho (by simp)

/-- Refining one X input of `evaluateXOR` either leaves the output unchanged
or the unrefined output was already X. -/
theorem evalXOR_refine (l₁ l₂ : List FanAtpg.LogicValue) (v : FanAtpg.LogicValue) :
    FanAtpg.evalXOR (l₁ ++ v :: l₂) = FanAtpg.evalXOR (l₁ ++ .X :: l₂) ∨
      FanAtpg.evalXOR (l₁ ++ .X :: l₂) = .X := by
  by_cases hlen : l₁.length + l₂.length + 1 = 2
  · right
    rcases l₁ with _ | ⟨a, l₁'⟩
    · rcases l₂ with _ | ⟨b, l₂'⟩
      · simp at hlen
      · have hnil : l₂' = [] := by
          simp at hlen
          exact hlen
        subst hnil
        rfl
    · have h1 : l₁'.length = 0 ∧ l₂.length = 0 := by
        simp at hlen
        omega
      have h1' : l₁' = [] := List.length_eq_zero.mp h1.1
      have h2' : l₂ = [] := List.length_eq_zero.mp h1.2
      subst h1'
      subst h2'
      cases a <;> rfl
  · left
    have len1 : (l₁ ++ v :: l₂).length ≠ 2 := by simp; omega
    have len2 : (l₁ ++ (FanAtpg.LogicValue.X : FanAtpg.LogicValue) :: l₂).length ≠ 2 := by
      simp; omega
    rw [evalXOR_len_ne_two _ len1, evalXOR_len_ne_two _ len2]

/-- C8.  Evaluation is monotone in information: for every gate kind, replacing
one X among the input values with any concrete (non-X) value either leaves
the evaluated output unchanged or the original output was itself X. -/
theorem C8_evaluate_monotone (t : FanAtpg.GateType)
    (l₁ l₂ : List FanAtpg.LogicValue) (v : FanAtpg.LogicValue) (hv : v ≠ .X) :
    FanAtpg.evalGate t (l₁ ++ v :: l₂) = FanAtpg.evalGate t (l₁ ++ .X :: l₂) ∨
      FanAtpg.evalGate t (l₁ ++ .X :: l₂) = .X := by
  cases t with
  | AND => exact evalAND_refine l₁ l₂ v
  | OR => exact evalOR_refine l₁ l₂ v
  | NAND =>
      rcases evalAND_refine l₁ l₂ v with h | h
      · left
        show FanAtpg.invertValue _ = FanAtpg.invertValue _
        rw [h]
      · right
        show FanAtpg.invertValue _ = _
        rw [h]
        rfl
  | NOR =>
      rcases evalOR_refine l₁ l₂ v with h | h
      · left
        show FanAtpg.invertValue _ = FanAtpg.invertValue _
        rw [h]
      · right
        show FanAtpg.invertValue _ = _
        rw [h]
        rfl
  | XOR => exact evalXOR_refine l₁ l₂ v
  | XNOR =>
      rcases evalXOR_refine l₁ l₂ v with h | h
      · left
        show FanAtpg.invertValue _ = FanAtpg.invertValue _
        rw [h]
      · right
        show FanAtpg.invertValue _ = _
        rw [h]
        rfl
  | NOT =>
      by_cases hlen : l₁.length + l₂.length + 1 = 1
      · have h1 : l₁ = [] := List.length_eq_zero.mp (by omega)
        have h2 : l₂ = [] := List.length_eq_zero.mp (by omega)
        subst h1
        subst h2
        right
        rfl
      · left
        have len1 : (l₁ ++ v :: l₂).length ≠ 1 := by simp; omega
        have len2 : (l₁ ++ (FanAtpg.LogicValue.X : FanAtpg.LogicValue) :: l₂).length ≠ 1 := by
          simp; omega
        show FanAtpg.evalNOT _ = FanAtpg.evalNOT _
        rw [evalNOT_len_ne_one _ len1, evalNOT_len_ne_one _ len2]
  | BUF =>
      by_cases hlen : l₁.length + l₂.length + 1 = 1
      · have h1 : l₁ = [] := List.length_eq_zero.mp (by omega)
        have h2 : l₂ = [] := List.length_eq_zero.mp (by omega)
        subst h1
        subst h2
        right
        rfl
      · left
        have len1 : (l₁ ++ v :: l₂).length ≠ 1 := by simp; omega
        have len2 : (l₁ ++ (FanAtpg.LogicValue.X : FanAtpg.LogicValue) :: l₂).length ≠ 1 := by
          simp; omega
        show FanAtpg.evalBUF _ = FanAtpg.evalBUF _
        rw [evalBUF_len_ne_one _ len1, evalBUF_len_ne_one _ len2]

/-- Witness for C8 at the concrete input: an AND gate with inputs [X, One],
refining the X to Zero. -/
theorem C8_evaluate_monotone_witness :
    (FanAtpg.LogicValue.Zero ≠ FanAtpg.LogicValue.X) ∧
    (FanAtpg.evalGate .AND ([] ++ .Zero :: [FanAtpg.LogicValue.One]) =
        FanAtpg.evalGate .AND ([] ++ .X :: [FanAtpg.LogicValue.One]) ∨
      FanAtpg.evalGate .AND ([] ++ .X :: [FanAtpg.LogicValue.One]) = .X) :=
  ⟨by decide, C8_evaluate_monotone .AND [] [.One] .Zero (by decide)⟩

/-! ### D-frontier membership (C4) -/

/-- The claim's sensitizability condition, stated from the spec's words: for
AND/OR/NAND/NOR no non-faulty input holds the gate's controlling value or is
X; for XOR/XNOR every non-faulty input is assigned; NOT/BUF are always
sensitizable. -/
def specSensitizable (c : FanAtpg.Circuit) (g : FanAtpg.Gate) : Prop :=
  match g.type with
  | .AND | .OR | .NAND | .NOR =>
      ∀ i ∈ g.inputs, (c.lineValue i).isFaulty = false →
        c.lineValue i ≠ g.getControllingValue ∧ c.lineValue i ≠ .X
  | .NOT | .BUF => True
  | .XOR | .XNOR =>
      ∀ i ∈ g.inputs, (c.lineValue i).isFaulty = false → c.lineValue i ≠ .X

/-- The claim's D-frontier membership condition: some input carries D or
Dnot, the output is X, and the gate is sensitizable. -/
def specInDFrontier (c : FanAtpg.Circuit) (g : FanAtpg.Gate) : Prop :=
  (∃ i ∈ g.inputs, c.lineValue i = .D ∨ c.lineValue i = .Dnot) ∧
  c.lineValue g.output = .X ∧ specSensitizable c g

theorem bool_or_iff_imp (b : Bool) (p : Prop) : (b = true ∨ p) ↔ (b = false → p) := by
  cases b <;> simp

/-- The code's per-gate sensitizability test agrees with the claim's. -/
theorem isSensitizable_iff_spec (c : FanAtpg.Circuit) (g : FanAtpg.Gate) :
    FanAtpg.Gate.isSensitizable c g = true ↔ specSensitizable c g := by
  rcases g with ⟨gid, gname, gtype, ginputs, goutput, gcid, gflag⟩
  cases gtype <;>
    simp only [FanAtpg.Gate.isSensitizable, specSensitizable, List.all_eq_true,
      Bool.or_eq_true, Bool.and_eq_true, bne_iff_ne, ne_eq] <;>
    first
      | trivial
      | (constructor
         · intro h i hi hnf
           rcases h i hi with hfault | hrest
           · rw [hnf] at hfault
             cases hfault
           · first
               | exact ⟨hrest.1, hrest.2⟩
               | exact hrest
         · intro h i hi
           by_cases hf : (c.lineValue i).isFaulty = true
           · exact Or.inl hf
           · have := h i hi (Bool.not_eq_true _ ▸ hf)
             first
               | exact Or.inr ⟨this.1, this.2⟩
               | exact Or.inr this)

/-- C4.  After `Frontier.UpdateDFrontier`, the D-frontier list is exactly the
gates (in traversal order) with a faulty input, an X output, and the
sensitizability condition of the claim; the code's membership test
`isGateInDFrontier` coincides with the claim's predicate on every gate. -/
theorem C4_dfrontier_exact (s : FanAtpg.AlgState) :
    (FanAtpg.Frontier.updateDFrontier s).dFrontier =
      ((s.c.gates.filter (fun g => FanAtpg.isGateInDFrontier s.c g)).map FanAtpg.Gate.id) ∧
    ∀ g : FanAtpg.Gate, FanAtpg.isGateInDFrontier s.c g = true ↔ specInDFrontier s.c g := by
  refine ⟨rfl, ?_⟩
  intro g
  simp only [FanAtpg.isGateInDFrontier, specInDFrontier, Bool.and_eq_true,
    FanAtpg.Gate.hasFaultyInput, List.any_eq_true, beq_iff_eq,
    isSensitizable_iff_spec]
  constructor
  · rintro ⟨⟨⟨i, hi, hfault⟩, hout⟩, hsens⟩
    exact ⟨⟨i, hi, (LogicValue.isFaulty_iff _).mp hfault⟩, hout, hsens⟩
  · rintro ⟨⟨i, hi, hfault⟩, hout, hsens⟩
    exact ⟨⟨⟨i, hi, (LogicValue.isFaulty_iff _).mpr hfault⟩, hout⟩, hsens⟩

/-! ### Frontier gate selection (C9) -/

theorem mem_insertByLt {α : Type} (lt : α → α → Bool) (a x : α) (l : List α) :
    x ∈ FanAtpg.insertByLt lt a l ↔ x = a ∨ x ∈ l := by
  induction l with
  | nil => simp [FanAtpg.insertByLt]
  | cons b rest ih =>
      simp only [FanAtpg.insertByLt]
      split
      · simp only [List.mem_cons, ih]
        tauto
      · simp [List.mem_cons]

theorem mem_sortByLt {α : Type} (lt : α → α → Bool) (x : α) (l : List α) :
    x ∈ FanAtpg.sortByLt lt l ↔ x ∈ l := by
  induction l with
  | nil => simp [FanAtpg.sortByLt]
  | cons a rest ih =>
      simp only [FanAtpg.sortByLt, mem_insertByLt, List.mem_cons, ih]

/-- The head of the comparator-sorted list is a member with minimal key. -/
theorem sortByLt_head_min {α : Type} (key : α → Nat) (l : List α) (h : l ≠ []) :
    ∃ g rest, FanAtpg.sortByLt (fun a b => key a < key b) l = g :: rest ∧
      g ∈ l ∧ ∀ b ∈ l, key g ≤ key b := by
  induction l with
  | nil => exact absurd rfl h
  | cons a l' ih =>
      cases l' with
      | nil =>
          refine ⟨a, [], rfl, List.mem_singleton.mpr rfl, ?_⟩
          intro b hb
          rw [List.mem_singleton.mp hb]
      | cons c l'' =>
          obtain ⟨g, rest, hsort, hg, hmin⟩ := ih (by simp)
          show ∃ g' rest', FanAtpg.insertByLt _ a (FanAtpg.sortByLt _ (c :: l'')) = g' :: rest' ∧ _
          rw [hsort]
          simp only [FanAtpg.insertByLt]
          by_cases hlt : (key g < key a)
          · refine ⟨g, _, by rw [if_pos (by simpa using hlt)], List.mem_cons_of_mem _ hg, ?_⟩
            intro b hb
            rcases List.mem_cons.mp hb with hb | hb
            · rw [hb]
              exact Nat.le_of_lt hlt
            · exact hmin b hb
          · refine ⟨a, _, by rw [if_neg (by simpa using hlt)], List.mem_cons_self _ _, ?_⟩
            intro b hb
            rcases List.mem_cons.mp hb with hb | hb
            · rw [hb]
            · exact Nat.le_trans (Nat.le_of_not_lt hlt) (hmin b hb)

/-- C9 amended.  `GetDFrontierGate` returns a gate of the D-frontier whose
number of inputs is minimal among the frontier's gates, and
`GetJFrontierGate` returns a gate of the J-frontier whose number of
unassigned inputs is minimal; no tie-break on gate ids is applied (ties
follow the unspecified traversal order of the gate map and the unstable
sort). -/
theorem C9_frontier_selection_minimal :
    (∀ (s : FanAtpg.AlgState) (g : FanAtpg.Gate),
      (FanAtpg.Frontier.getDFrontierGate s).2 = some g →
        g ∈ s.dFrontier.filterMap s.c.getGate ∧
        ∀ h ∈ s.dFrontier.filterMap s.c.getGate,
          g.inputs.length ≤ h.inputs.length) ∧
    (∀ (s : FanAtpg.AlgState) (g : FanAtpg.Gate),
      (FanAtpg.Frontier.getJFrontierGate s).2 = some g →
        g ∈ s.jFrontier.filterMap s.c.getGate ∧
        ∀ h ∈ s.jFrontier.filterMap s.c.getGate,
          FanAtpg.countUnassignedInputs s.c g ≤ FanAtpg.countUnassignedInputs s.c h) := by
  constructor
  · intro s g hret
    unfold FanAtpg.Frontier.getDFrontierGate at hret
    split at hret
    · cases hret
    · cases hgs : s.dFrontier.filterMap s.c.getGate with
      | nil =>
          rw [hgs] at hret
          cases hret
      | cons c l =>
          obtain ⟨g', rest', hsort, hg', hmin'⟩ :=
            sortByLt_head_min (fun g : FanAtpg.Gate => g.inputs.length) (c :: l) (by simp)
          rw [hgs] at hret
          dsimp only at hret
          rw [hsort] at hret
          simp only [List.head?_cons, Option.some.injEq] at hret
          subst hret
          exact ⟨hg', hmin'⟩
  · intro s g hret
    unfold FanAtpg.Frontier.getJFrontierGate at hret
    split at hret
    · cases hret
    · cases hgs : s.jFrontier.filterMap s.c.getGate with
      | nil =>
          rw [hgs] at hret
          cases hret
      | cons c l =>
          obtain ⟨g', rest', hsort, hg', hmin'⟩ :=
            sortByLt_head_min (fun g : FanAtpg.Gate => FanAtpg.countUnassignedInputs s.c g)
              (c :: l) (by simp)
          rw [hgs] at hret
          dsimp only at hret
          rw [hsort] at hret
          simp only [List.head?_cons, Option.some.injEq] at hret
          subst hret
          exact ⟨hg', hmin'⟩

/-- The gate selected from the S9 frontier (g2 with its frontier flag set). -/
def S9sel : FanAtpg.Gate :=
  { id := 2, name := "g2", type := .AND, inputs := [1, 11], output := 3,
    controlID := 0, isInDFrontier := true }

/-- C9 counterexample.  On the S9 state the rebuilt D-frontier holds gates 2
and 1 (a legal traversal order of the Go gate map), both with two inputs;
`GetDFrontierGate` returns the gate with id 2, not the smaller id 1, so ties
are not broken by gate id. -/
theorem C9_counterexample_no_id_tiebreak :
    (FanAtpg.Frontier.updateDFrontier FanAtpg.S9S).dFrontier = [2, 1] ∧
    (FanAtpg.Frontier.getDFrontierGate (FanAtpg.Frontier.updateDFrontier FanAtpg.S9S)).2 =
      some S9sel ∧
    S9sel.id = 2 ∧
    (((FanAtpg.Frontier.updateDFrontier FanAtpg.S9S).c.getGate 1).map
        (fun g => g.inputs.length)) = some 2 ∧
    S9sel.inputs.length = 2 := by
  refine ⟨by decide, by decide, by decide, by decide, by decide⟩

/-- A circuit with an AND gate whose output is assigned Zero and whose first
input is unassigned (a J-frontier member), for the C9 witness. -/
def JC : FanAtpg.Circuit :=
  { name := "JC",
    gates := [{ id := 1, name := "g1", type := .AND, inputs := [1, 2], output := 3,
                controlID := 0, isInDFrontier := false }],
    lines := [{ NewLine 1 "a" .PrimaryInput with outputGates := [1] },
              { NewLine 2 "b" .PrimaryInput with value := .One, outputGates := [1] },
              { NewLine 3 "y" .PrimaryOutput with value := .Zero, inputGate := some 1 }],
    inputs := [1, 2], outputs := [3], faultSite := none, faultType := .X,
    dFrontier := [], jFrontier := [], headLines := [] }

/-- The algorithm state holding `JC` with its J-frontier rebuilt. -/
def JCS : FanAtpg.AlgState :=
  FanAtpg.Frontier.updateJFrontier { c := FanAtpg.JC, dFrontier := [], jFrontier := [] }

/-- The gate selected from the JC J-frontier. -/
def JCsel : FanAtpg.Gate :=
  { id := 1, name := "g1", type := .AND, inputs := [1, 2], output := 3,
    controlID := 0, isInDFrontier := false }

/-- Witness for C9's amended statement on concrete frontiers. -/
theorem C9_frontier_selection_witness :
    ((FanAtpg.Frontier.getDFrontierGate (FanAtpg.Frontier.updateDFrontier FanAtpg.S9S)).2 =
        some S9sel ∧
      S9sel ∈ (FanAtpg.Frontier.updateDFrontier FanAtpg.S9S).dFrontier.filterMap
        (FanAtpg.Frontier.updateDFrontier FanAtpg.S9S).c.getGate ∧
      ∀ h ∈ (FanAtpg.Frontier.updateDFrontier FanAtpg.S9S).dFrontier.filterMap
        (FanAtpg.Frontier.updateDFrontier FanAtpg.S9S).c.getGate,
          S9sel.inputs.length ≤ h.inputs.length) ∧
    ((FanAtpg.Frontier.getJFrontierGate FanAtpg.JCS).2 = some JCsel ∧
      JCsel ∈ FanAtpg.JCS.jFrontier.filterMap FanAtpg.JCS.c.getGate ∧
      ∀ h ∈ FanAtpg.JCS.jFrontier.filterMap FanAtpg.JCS.c.getGate,
        FanAtpg.countUnassignedInputs FanAtpg.JCS.c JCsel ≤
          FanAtpg.countUnassignedInputs FanAtpg.JCS.c h) := by
  constructor
  · refine ⟨by decide, ?_, ?_⟩
    · exact (C9_frontier_selection_minimal.1 _ _ (by decide)).1
    · exact (C9_frontier_selection_minimal.1 _ _ (by decide)).2
  · refine ⟨by decide, ?_, ?_⟩
    · exact (C9_frontier_selection_minimal.2 _ _ (by decide)).1
    · exact (C9_frontier_selection_minimal.2 _ _ (by decide)).2

/-! ### Line-id preservation through the implication engine (towards C5)

Every mutation performed by `imply` rewrites line values in place; none adds
or removes a line.  These lemmas record that the list of line ids is
invariant, which justifies the snapshot/restore protocol of `tryValue`. -/

theorem setLineValue_ids (c : FanAtpg.Circuit) (id : Nat) (v : FanAtpg.LogicValue) :
    (c.setLineValue id v).lines.map Line.id = c.lines.map Line.id := by
  simp only [FanAtpg.Circuit.setLineValue, List.map_map]
  apply List.map_congr_left
  intro l _
  simp only [Function.comp]
  split <;> rfl

theorem setLineValueRaw_ids (c : FanAtpg.Circuit) (id : Nat) (v : FanAtpg.LogicValue) :
    (c.setLineValueRaw id v).lines.map Line.id = c.lines.map Line.id := by
  simp only [FanAtpg.Circuit.setLineValueRaw, List.map_map]
  apply List.map_congr_left
  intro l _
  simp only [Function.comp]
  split <;> rfl

theorem simulateForwardGo_ids (gs : List FanAtpg.Gate) :
    ∀ (c : FanAtpg.Circuit) (ch : Bool),
      ((FanAtpg.simulateForwardGo c gs ch).1).lines.map Line.id = c.lines.map Line.id := by
  induction gs with
  | nil => intro c ch; rfl
  | cons g rest ih =>
      intro c ch
      simp only [FanAtpg.simulateForwardGo]
      split
      · split
        · rw [ih, setLineValueRaw_ids]
        · exact ih c ch
      · exact ih c ch

theorem simulateForward_ids (c : FanAtpg.Circuit) :
    ((c.simulateForward).1).lines.map Line.id = c.lines.map Line.id :=
  simulateForwardGo_ids c.gates c false

theorem implyForward_ids (s : FanAtpg.AlgState) :
    ((FanAtpg.Implication.implyForward s).1).c.lines.map Line.id =
      s.c.lines.map Line.id := by
  simp only [FanAtpg.Implication.implyForward]
  split <;> exact simulateForward_ids s.c

theorem implyBackwardInputs_ids (ids : List Nat) :
    ∀ (c : FanAtpg.Circuit) (ncv : FanAtpg.LogicValue) (ch : Bool),
      ((FanAtpg.implyBackwardInputs c ncv ids ch).1).lines.map Line.id =
        c.lines.map Line.id := by
  induction ids with
  | nil => intro c ncv ch; rfl
  | cons i rest ih =>
      intro c ncv ch
      simp only [FanAtpg.implyBackwardInputs]
      split
      · rw [ih, setLineValue_ids]
      · split
        · rfl
        · exact ih c ncv ch

theorem implyBackwardGo_ids (gs : List FanAtpg.Gate) :
    ∀ (c : FanAtpg.Circuit) (ch : Bool),
      ((FanAtpg.implyBackwardGo c gs ch).1).lines.map Line.id =
        c.lines.map Line.id := by
  induction gs with
  | nil =>
      intro c ch
      simp only [FanAtpg.implyBackwardGo]
      split <;> rfl
  | cons g rest ih =>
      intro c ch
      simp only [FanAtpg.implyBackwardGo]
      repeat' split
      all_goals first
        | rfl
        | exact ih c ch
        | rw [ih, setLineValue_ids]
        | (rename_i c1 changed1 heq
           rw [ih]
           have h5 := implyBackwardInputs_ids g.inputs c .One ch
           rw [heq] at h5
           exact h5)
        | (rename_i c1 changed1 heq
           rw [ih]
           have h5 := implyBackwardInputs_ids g.inputs c .Zero ch
           rw [heq] at h5
           exact h5)
        | (rename_i c1 changed1 e heq
           have h5 := implyBackwardInputs_ids g.inputs c .One ch
           rw [heq] at h5
           exact h5)
        | (rename_i c1 changed1 e heq
           have h5 := implyBackwardInputs_ids g.inputs c .Zero ch
           rw [heq] at h5
           exact h5)

theorem implyBackward_ids (s : FanAtpg.AlgState) :
    ((FanAtpg.Implication.implyBackward s).1).c.lines.map Line.id =
      s.c.lines.map Line.id := by
  simp only [FanAtpg.Implication.implyBackward]
  exact implyBackwardGo_ids s.c.gates s.c false

theorem sensitizeInputs_ids (ids : List Nat) (path : List Nat)
    (ncv : FanAtpg.LogicValue) :
    ∀ (c : FanAtpg.Circuit) (ch : Bool),
      ((FanAtpg.sensitizeInputs path ncv c ids ch).1).lines.map Line.id =
        c.lines.map Line.id := by
  induction ids with
  | nil => intro c ch; rfl
  | cons i rest ih =>
      intro c ch
      simp only [FanAtpg.sensitizeInputs]
      split
      · rw [ih, setLineValue_ids]
      · exact ih c ch

theorem sensitizeLine_ids (gid : Nat) (path : List Nat) (c : FanAtpg.Circuit)
    (lineId : Nat) (ch : Bool) :
    ((FanAtpg.sensitizeLine gid path c lineId ch).1).lines.map Line.id =
      c.lines.map Line.id := by
  simp only [FanAtpg.sensitizeLine]
  repeat' split
  all_goals first
    | rfl
    | exact sensitizeInputs_ids _ _ _ c ch

theorem sensitizePath_ids (path : List Nat) (gid : Nat) :
    ∀ (acc : FanAtpg.Circuit × Bool) (walk : List Nat),
      ((walk.foldl (fun (acc : FanAtpg.Circuit × Bool) lineId =>
          FanAtpg.sensitizeLine gid path acc.1 lineId acc.2) acc).1).lines.map Line.id =
        acc.1.lines.map Line.id := by
  intro acc walk
  induction walk generalizing acc with
  | nil => rfl
  | cons p rest ih =>
      rw [List.foldl_cons]
      rw [ih]
      exact sensitizeLine_ids gid path acc.1 p acc.2

theorem sensitizePath_ids' (gid : Nat) (path : List Nat) (c : FanAtpg.Circuit)
    (ch : Bool) :
    ((FanAtpg.sensitizePath gid path c ch).1).lines.map Line.id =
      c.lines.map Line.id := by
  unfold FanAtpg.sensitizePath
  exact sensitizePath_ids path gid (c, ch) path

theorem applyUniqueSensitization_ids (s : FanAtpg.AlgState) (g : FanAtpg.Gate) :
    ((FanAtpg.Implication.applyUniqueSensitization s g).1).c.lines.map Line.id =
      s.c.lines.map Line.id := by
  unfold FanAtpg.Implication.applyUniqueSensitization
  dsimp only
  split
  · rfl
  · have main : ∀ (paths : List (List Nat)) (acc : FanAtpg.Circuit × Bool),
        ((paths.foldl (fun (acc : FanAtpg.Circuit × Bool) path =>
            FanAtpg.sensitizePath g.id path acc.1 acc.2) acc).1).lines.map Line.id =
          acc.1.lines.map Line.id := by
      intro paths
      induction paths with
      | nil => intro acc; rfl
      | cons p rest ih =>
          intro acc
          rw [List.foldl_cons, ih]
          exact sensitizePath_ids' g.id p acc.1 acc.2
    exact main (FanAtpg.findUniquePathsToOutputs s.c g) (s.c, false)

theorem updateDFrontier_lines (s : FanAtpg.AlgState) :
    (FanAtpg.Frontier.updateDFrontier s).c.lines = s.c.lines := rfl

theorem updateJFrontier_lines (s : FanAtpg.AlgState) :
    (FanAtpg.Frontier.updateJFrontier s).c.lines = s.c.lines := rfl

theorem implyValuesLoop_ids (fuel : Nat) :
    ∀ (s : FanAtpg.AlgState),
      ((FanAtpg.implyValuesLoop fuel s).1).c.lines.map Line.id =
        s.c.lines.map Line.id := by
  induction fuel with
  | zero => intro s; rfl
  | succ n ih =>
      intro s
      rw [FanAtpg.implyValuesLoop]
      rcases hf : FanAtpg.Implication.implyForward s with ⟨s1, fwd, e1⟩
      have h1 : s1.c.lines.map Line.id = s.c.lines.map Line.id := by
        have h0 := implyForward_ids s
        rw [hf] at h0
        exact h0
      cases e1 with
      | some e => simp only [hf]; exact h1
      | none =>
          simp only [hf]
          rcases hb : FanAtpg.Implication.implyBackward s1 with ⟨s2, bwd, e2⟩
          have h2 : s2.c.lines.map Line.id = s1.c.lines.map Line.id := by
            have h0 := implyBackward_ids s1
            rw [hb] at h0
            exact h0
          cases e2 with
          | some e => simp only [hb]; rw [h2, h1]
          | none =>
              simp only [hb]
              set s3 := FanAtpg.Frontier.updateJFrontier (FanAtpg.Frontier.updateDFrontier s2)
                with hs3
              rcases hE : (if s3.dFrontier.length == 1 then
                  match s3.dFrontier.head? >>= s3.c.getGate with
                  | some g => FanAtpg.Implication.applyUniqueSensitization s3 g
                  | none => (s3, false)
                else (s3, false)) with ⟨s4, us⟩
              have h3 : s3.c.lines.map Line.id = s2.c.lines.map Line.id := rfl
              have h4 : s4.c.lines.map Line.id = s2.c.lines.map Line.id := by
                by_cases hlen : (s3.dFrontier.length == 1) = true
                · rw [if_pos hlen] at hE
                  rcases hg : s3.dFrontier.head? >>= s3.c.getGate with _ | g
                  · rw [hg] at hE
                    dsimp only at hE
                    have hs4 : s3 = s4 := congrArg Prod.fst hE
                    rw [← hs4]
                    exact h3
                  · rw [hg] at hE
                    dsimp only at hE
                    have h0 := applyUniqueSensitization_ids s3 g
                    rw [hE] at h0
                    exact h0.trans h3
                · rw [if_neg hlen] at hE
                  have hs4 : s3 = s4 := congrArg Prod.fst hE
                  rw [← hs4]
                  exact h3
              rw [hE]
              split
              · rw [ih s4, h4, h2, h1]
              · show s4.c.lines.map Line.id = s.c.lines.map Line.id
                rw [h4, h2, h1]

theorem implyValues_ids (s : FanAtpg.AlgState) :
    ((FanAtpg.Implication.implyValues s).1).c.lines.map Line.id =
      s.c.lines.map Line.id := by
  unfold FanAtpg.Implication.implyValues
  split
  next s1 e heq =>
    have := implyValuesLoop_ids 100 s
    rw [heq] at this
    exact this
  next s1 heq =>
    have h1 : s1.c.lines.map Line.id = s.c.lines.map Line.id := by
      have := implyValuesLoop_ids 100 s
      rw [heq] at this
      exact this
    split <;> exact h1

/-! ### The snapshot/restore protocol restores every line value (C5 part 2) -/

/-- The effect of the restore loop on one line: each saved pair whose key
matches the line's id overwrites its value. -/
def applyPairs (saved : List (Nat × FanAtpg.LogicValue)) (l : FanAtpg.Line) : FanAtpg.Line :=
  saved.foldl (fun acc p => if acc.id == p.1 then { acc with value := p.2 } else acc) l

theorem restoreValues_eq_map (saved : List (Nat × FanAtpg.LogicValue)) :
    ∀ c' : FanAtpg.Circuit,
      (FanAtpg.restoreValues c' saved).lines = c'.lines.map (applyPairs saved) := by
  induction saved with
  | nil =>
      intro c'
      show c'.lines = c'.lines.map (applyPairs [])
      have h0 : c'.lines.map (applyPairs []) = c'.lines.map (fun l => l) := rfl
      rw [h0, List.map_id']
  | cons p rest ih =>
      intro c'
      show (FanAtpg.restoreValues (c'.setLineValueRaw p.1 p.2) rest).lines = _
      rw [ih]
      simp only [FanAtpg.Circuit.setLineValueRaw, List.map_map]
      rfl

theorem applyPairs_id (saved : List (Nat × FanAtpg.LogicValue)) :
    ∀ l : FanAtpg.Line, (applyPairs saved l).id = l.id := by
  induction saved with
  | nil => intro l; rfl
  | cons p rest ih =>
      intro l
      show (applyPairs rest (if l.id == p.1 then { l with value := p.2 } else l)).id = l.id
      rw [ih]
      split <;> rfl

theorem applyPairs_not_mem (saved : List (Nat × FanAtpg.LogicValue)) :
    ∀ l : FanAtpg.Line, (∀ q ∈ saved, q.1 ≠ l.id) → applyPairs saved l = l := by
  induction saved with
  | nil => intro l _; rfl
  | cons q rest ih =>
      intro l hq
      show applyPairs rest (if l.id == q.1 then { l with value := q.2 } else l) = l
      have hne : (l.id == q.1) = false := by
        have hq0 := hq q (List.mem_cons_self _ _)
        cases h : (l.id == q.1)
        · rfl
        · exact absurd (beq_iff_eq.mp h).symm hq0
      rw [hne]
      simp only [Bool.false_eq_true, if_false]
      exact ih l (fun q' hq' => hq q' (List.mem_cons_of_mem _ hq'))

theorem applyPairs_nodup (saved : List (Nat × FanAtpg.LogicValue))
    (hnd : (saved.map Prod.fst).Nodup) (l : FanAtpg.Line) :
    applyPairs saved l =
      match saved.find? (fun p => p.1 == l.id) with
      | some p => { l with value := p.2 }
      | none => l := by
  induction saved with
  | nil => rfl
  | cons q rest ih =>
      have hnd' : (rest.map Prod.fst).Nodup := (List.nodup_cons.mp hnd).2
      have hq1 : q.1 ∉ rest.map Prod.fst := (List.nodup_cons.mp hnd).1
      show applyPairs rest (if l.id == q.1 then { l with value := q.2 } else l) = _
      by_cases hmatch : (l.id == q.1) = true
      · rw [hmatch]
        simp only [if_true]
        have hid : l.id = q.1 := beq_iff_eq.mp hmatch
        have hrest : applyPairs rest { l with value := q.2 } = { l with value := q.2 } := by
          apply applyPairs_not_mem
          intro q' hq' hc
          apply hq1
          have hq'1 : q'.1 = q.1 := by
            have h1 : ({ l with value := q.2 } : FanAtpg.Line).id = l.id := rfl
            rw [hc, h1, hid]
          rw [← hq'1]
          exact List.mem_map_of_mem Prod.fst hq'
        rw [hrest]
        have hfind : (q :: rest).find? (fun p => p.1 == l.id) = some q := by
          have : (q.1 == l.id) = true := by
            rw [hid]
            exact beq_self_eq_true _
          simp [List.find?_cons, this]
        rw [hfind]
      · have hne : (l.id == q.1) = false := by
          cases h : (l.id == q.1)
          · rfl
          · exact absurd h hmatch
        rw [hne]
        simp only [Bool.false_eq_true, if_false]
        rw [ih hnd']
        have hfq : (q.1 == l.id) = false := by
          cases h : (q.1 == l.id)
          · rfl
          · exact absurd (beq_iff_eq.mpr (beq_iff_eq.mp h).symm) hmatch
        have hfind : (q :: rest).find? (fun p => p.1 == l.id) =
            rest.find? (fun p => p.1 == l.id) := by
          simp [List.find?_cons, hfq]
        rw [hfind]

theorem find?_ext {α : Type} (p q : α → Bool) (h : ∀ a, p a = q a) :
    ∀ l : List α, l.find? p = l.find? q := by
  intro l
  induction l with
  | nil => rfl
  | cons a rest ih => simp [List.find?_cons, h a, ih]

/-- Restoring the snapshot of `c` into any circuit with the same line ids
(no duplicates) brings every line value back to its value in `c`. -/
theorem restore_lineValue (c c' : FanAtpg.Circuit)
    (hid : c'.lines.map Line.id = c.lines.map Line.id)
    (hn : (c.lines.map Line.id).Nodup) (id : Nat) :
    (FanAtpg.restoreValues c' (FanAtpg.saveCircuitState c)).lineValue id =
      c.lineValue id := by
  have hS : (FanAtpg.saveCircuitState c).map Prod.fst = c.lines.map Line.id := by
    simp [FanAtpg.saveCircuitState, List.map_map]
  have hSnd : ((FanAtpg.saveCircuitState c).map Prod.fst).Nodup := by
    rw [hS]
    exact hn
  unfold FanAtpg.Circuit.lineValue FanAtpg.Circuit.getLine
  rw [restoreValues_eq_map]
  rw [List.find?_map]
  have hpred : ∀ l : FanAtpg.Line,
      ((fun l => l.id == id) ∘ applyPairs (FanAtpg.saveCircuitState c)) l =
        (fun l : FanAtpg.Line => l.id == id) l := by
    intro l
    simp [Function.comp, applyPairs_id]
  rw [find?_ext _ _ hpred c'.lines]
  cases hfind : c'.lines.find? (fun l => l.id == id) with
  | none =>
      have hnotin : id ∉ c'.lines.map Line.id := by
        intro hin
        rcases List.mem_map.mp hin with ⟨l, hl, hlid⟩
        have := List.find?_eq_none.mp hfind l hl
        simp [hlid] at this
      rw [hid] at hnotin
      have hcnone : c.lines.find? (fun l => l.id == id) = none := by
        apply List.find?_eq_none.mpr
        intro l hl hc
        apply hnotin
        have : l.id = id := beq_iff_eq.mp hc
        rw [← this]
        exact List.mem_map_of_mem Line.id hl
      rw [hcnone]
      rfl
  | some l0 =>
      have hp0 : (l0.id == id) = true :=
        @List.find?_some _ (fun l => l.id == id) l0 c'.lines hfind
      have hl0id : l0.id = id := beq_iff_eq.mp hp0
      have hl0mem : l0 ∈ c'.lines := List.mem_of_find?_eq_some hfind
      have hidin : id ∈ c.lines.map Line.id := by
        rw [← hid, ← hl0id]
        exact List.mem_map_of_mem Line.id hl0mem
      rcases List.mem_map.mp hidin with ⟨lc, hlc, hlcid⟩
      have hcfind : ∃ lc', c.lines.find? (fun l => l.id == id) = some lc' := by
        cases hcf : c.lines.find? (fun l => l.id == id) with
        | some lc' => exact ⟨lc', rfl⟩
        | none =>
            have := List.find?_eq_none.mp hcf lc hlc
            simp [hlcid] at this
      rcases hcfind with ⟨lc', hcf⟩
      have hpc : (lc'.id == id) = true :=
        @List.find?_some _ (fun l => l.id == id) lc' c.lines hcf
      have hlc'id : lc'.id = id := beq_iff_eq.mp hpc
      rw [hcf]
      simp only [Option.map_some', Option.getD_some]
      rw [applyPairs_nodup _ hSnd]
      have hSfind : (FanAtpg.saveCircuitState c).find? (fun p => p.1 == l0.id) =
          some (lc'.id, lc'.value) := by
        unfold FanAtpg.saveCircuitState
        rw [List.find?_map]
        have : (c.lines.find? ((fun p : Nat × FanAtpg.LogicValue => p.1 == l0.id) ∘
            (fun l : FanAtpg.Line => (l.id, l.value)))) = some lc' := by
          have hsame : ∀ l : FanAtpg.Line,
              ((fun p : Nat × FanAtpg.LogicValue => p.1 == l0.id) ∘
                (fun l : FanAtpg.Line => (l.id, l.value))) l =
              (fun l : FanAtpg.Line => l.id == id) l := by
            intro l
            simp [Function.comp, hl0id]
          rw [find?_ext _ _ hsame c.lines]
          exact hcf
        rw [this]
        rfl
      rw [hSfind]

/-- The XOR gate of the `CXor` circuit. -/
def CXg : FanAtpg.Gate :=
  { id := 1, name := "g1", type := .XOR, inputs := [1, 2], output := 3,
    controlID := 0, isInDFrontier := false }

/-- C5 counterexample.  On the `CXor` state, `ImplyValues` returns success,
yet the XOR gate has all inputs assigned (a = D, b = 1) and its output
assigned One while `Evaluate` yields X ≠ One: the conflict check skips gates
whose simulated value is X, so the claim's "no gate with all inputs assigned
has an output assigned to a value different from evaluating its inputs" fails
after a successful imply. -/
theorem C5_counterexample_xor_skipped :
    FanAtpg.Implication.implyValues FanAtpg.CXorS =
      ((FanAtpg.Implication.implyValues FanAtpg.CXorS).1, true, none) ∧
    CXg ∈ (FanAtpg.Implication.implyValues FanAtpg.CXorS).1.c.gates ∧
    FanAtpg.Gate.isInputsAssigned
      (FanAtpg.Implication.implyValues FanAtpg.CXorS).1.c CXg = true ∧
    (FanAtpg.Implication.implyValues FanAtpg.CXorS).1.c.lineValue CXg.output = .One ∧
    FanAtpg.Gate.evaluate (FanAtpg.Implication.implyValues FanAtpg.CXorS).1.c CXg = .X ∧
    (FanAtpg.Implication.implyValues FanAtpg.CXorS).1.c.lineValue CXg.output ≠
      FanAtpg.Gate.evaluate (FanAtpg.Implication.implyValues FanAtpg.CXorS).1.c CXg := by
  refine ⟨by decide, by decide, by decide, by decide, by decide, by decide⟩

/-- C5 amended.  After `ImplyValues` returns success, every gate with all
inputs assigned, an assigned output and a non-X evaluated value has its
output equal to that evaluated value (gates whose five-valued evaluation is
X — e.g. an XOR with a faulty input — are exempted by the conflict check);
and whenever `tryValue` reports failure, every line's value is restored to
its value before the attempt (line ids assumed duplicate-free, as in every
constructed circuit). -/
theorem C5_imply_consistency_and_restore :
    (∀ (s s' : FanAtpg.AlgState),
      FanAtpg.Implication.implyValues s = (s', true, none) →
      ∀ g ∈ s'.c.gates, FanAtpg.Gate.isInputsAssigned s'.c g = true →
        s'.c.lineValue g.output ≠ .X → FanAtpg.Gate.evaluate s'.c g ≠ .X →
        s'.c.lineValue g.output = FanAtpg.Gate.evaluate s'.c g) ∧
    (∀ (s : FanAtpg.AlgState) (lineId : Nat) (v : FanAtpg.LogicValue)
        (s' : FanAtpg.AlgState),
      (s.c.lines.map Line.id).Nodup →
      FanAtpg.Decision.tryValue s lineId v = (s', false, none) →
      ∀ id, s'.c.lineValue id = s.c.lineValue id) := by
  constructor
  · intro s s' h g hg hin hout hev
    have hconf : FanAtpg.hasConflict s'.c = false := by
      unfold FanAtpg.Implication.implyValues at h
      split at h
      · simp at h
      · split at h
        · simp at h
        · rename_i s1 heqLoop hcf
          have hs' : s1 = s' := by
            have := congrArg (fun t => t.1) h
            exact this
          rw [← hs']
          cases hx : FanAtpg.hasConflict s1.c
          · rfl
          · exact absurd hx hcf
    have hA : (s'.c.gates.any (fun g =>
        s'.c.lineValue g.output != .X &&
        FanAtpg.Gate.isInputsAssigned s'.c g &&
        FanAtpg.Gate.evaluate s'.c g != .X &&
        s'.c.lineValue g.output != FanAtpg.Gate.evaluate s'.c g)) = false := by
      unfold FanAtpg.hasConflict at hconf
      exact (Bool.or_eq_false_iff.mp hconf).1
    have hp := List.any_eq_false.mp hA g hg
    by_contra hne
    apply hp
    simp only [Bool.and_eq_true, bne_iff_ne, ne_eq]
    exact ⟨⟨⟨hout, hin⟩, hev⟩, hne⟩
  · intro s lineId v s' hn h id
    have hids1 : ((s.c.setLineValue lineId v).lines.map Line.id) =
        s.c.lines.map Line.id := setLineValue_ids s.c lineId v
    unfold FanAtpg.Decision.tryValue at h
    rcases hiv : FanAtpg.Implication.implyValues
        { s with c := s.c.setLineValue lineId v } with ⟨s2, ok, err⟩
    have hids2 : s2.c.lines.map Line.id = s.c.lines.map Line.id := by
      have h0 := implyValues_ids { s with c := s.c.setLineValue lineId v }
      rw [hiv] at h0
      exact h0.trans hids1
    simp only [hiv] at h
    by_cases hfail : (err.isSome || !ok) = true
    · rw [if_pos hfail] at h
      have hs' : FanAtpg.Decision.restoreCircuitState s2
          (FanAtpg.saveCircuitState s.c) = s' := congrArg (fun t => t.1) h
      rw [← hs']
      show (FanAtpg.restoreValues s2.c (FanAtpg.saveCircuitState s.c)).lineValue id =
        s.c.lineValue id
      exact restore_lineValue s.c s2.c hids2 hn id
    · rw [if_neg hfail] at h
      by_cases hxp : ((FanAtpg.Frontier.updateJFrontier
            (FanAtpg.Frontier.updateDFrontier s2)).dFrontier.isEmpty = false ∧
          FanAtpg.Implication.checkIfXPathExists
            (FanAtpg.Frontier.updateJFrontier
              (FanAtpg.Frontier.updateDFrontier s2)).c = false)
      · have hcond : (!(FanAtpg.Frontier.updateJFrontier
            (FanAtpg.Frontier.updateDFrontier s2)).dFrontier.isEmpty &&
            !FanAtpg.Implication.checkIfXPathExists
              (FanAtpg.Frontier.updateJFrontier
                (FanAtpg.Frontier.updateDFrontier s2)).c) = true := by
          rw [hxp.1, hxp.2]
          rfl
        rw [if_pos hcond] at h
        have hs' : FanAtpg.Decision.restoreCircuitState
            (FanAtpg.Frontier.updateJFrontier (FanAtpg.Frontier.updateDFrontier s2))
            (FanAtpg.saveCircuitState s.c) = s' := congrArg (fun t => t.1) h
        rw [← hs']
        show (FanAtpg.restoreValues
            (FanAtpg.Frontier.updateJFrontier (FanAtpg.Frontier.updateDFrontier s2)).c
            (FanAtpg.saveCircuitState s.c)).lineValue id = s.c.lineValue id
        exact restore_lineValue s.c
          (FanAtpg.Frontier.updateJFrontier (FanAtpg.Frontier.updateDFrontier s2)).c
          hids2 hn id
      · have hcond : (!(FanAtpg.Frontier.updateJFrontier
            (FanAtpg.Frontier.updateDFrontier s2)).dFrontier.isEmpty &&
            !FanAtpg.Implication.checkIfXPathExists
              (FanAtpg.Frontier.updateJFrontier
                (FanAtpg.Frontier.updateDFrontier s2)).c) = false := by
          cases h1 : (FanAtpg.Frontier.updateJFrontier
              (FanAtpg.Frontier.updateDFrontier s2)).dFrontier.isEmpty
          · cases h2 : FanAtpg.Implication.checkIfXPathExists
                (FanAtpg.Frontier.updateJFrontier
                  (FanAtpg.Frontier.updateDFrontier s2)).c
            · exact absurd ⟨h1, h2⟩ hxp
            · rfl
          · rfl
        rw [if_neg (by rw [hcond]; exact Bool.false_ne_true)] at h
        have hbad := congrArg (fun t => t.2.1) h
        simp at hbad

/-- The AND gate of the `W5` circuit. -/
def W5g : FanAtpg.Gate :=
  { id := 1, name := "g1", type := .AND, inputs := [1, 2], output := 3,
    controlID := 0, isInDFrontier := false }

/-- Witness for C5's amended statement: a successful imply on the consistent
`W5` state with its AND gate, and a failing `tryValue` on the fault-injected
`S1` state with the fault-site line restored. -/
theorem C5_imply_consistency_and_restore_witness :
    (FanAtpg.Implication.implyValues FanAtpg.W5S =
        ((FanAtpg.Implication.implyValues FanAtpg.W5S).1, true, none) ∧
      (FanAtpg.Implication.implyValues FanAtpg.W5S).1.c.lineValue W5g.output =
        FanAtpg.Gate.evaluate (FanAtpg.Implication.implyValues FanAtpg.W5S).1.c W5g) ∧
    ((FanAtpg.S1S.c.lines.map Line.id).Nodup ∧
      FanAtpg.Decision.tryValue FanAtpg.S1S 1 .One =
        ((FanAtpg.Decision.tryValue FanAtpg.S1S 1 .One).1, false, none) ∧
      (FanAtpg.Decision.tryValue FanAtpg.S1S 1 .One).1.c.lineValue 1 =
        FanAtpg.S1S.c.lineValue 1) :=
  ⟨⟨by decide,
    C5_imply_consistency_and_restore.1 FanAtpg.W5S
      (FanAtpg.Implication.implyValues FanAtpg.W5S).1 (by decide) W5g
      (by decide) (by decide) (by decide) (by decide)⟩,
   ⟨by decide, by decide,
    C5_imply_consistency_and_restore.2 FanAtpg.S1S 1 .One
      (FanAtpg.Decision.tryValue FanAtpg.S1S 1 .One).1 (by decide) (by decide) 1⟩⟩

end FanAtpg
